import Mathlib

/-!
Shallow embedding of the rendering core of the `unigd` R package
(files under `src/`: `renderer_svg.cpp`, `renderer_json.cpp`,
`renderer_cairo.cpp`, `unigd.cpp`), together with theorems settling the
frozen specification claims.

Numeric conventions of the embedding:
* C++ `double` values are modelled as `ℚ`; the fmt format `"{:.2f}"` is
  modelled by `Unigd.fmt2` (round to nearest, two fixed decimals);
* C++ `int` is modelled as `ℤ`, `size_t` wrap-around is made explicit;
* stateful writes into the output buffer become pure string
  concatenation, in the exact order of the `fmt::format_to` calls;
* painter-API calls of the Cairo backend become an explicit operation
  trace (`Unigd.CairoOp`);
* C++ undefined behaviour (reading `cps.front()` of an empty vector,
  dereferencing the `nper` iterator past its end) is modelled by
  `Option`, with `none` for the undefined case.
-/

namespace Unigd

/-- Kernel-computable round-to-nearest on `ℚ` (ties away from the lower
value, i.e. `⌊q + 1/2⌋`), written directly on the numerator and
denominator so that concrete instances evaluate inside `decide`. -/
def rnd (q : ℚ) : ℤ := (2 * q.num + (q.den : ℤ)) / (2 * (q.den : ℤ))

theorem rnd_eq_round (q : ℚ) : rnd q = round q := by
  have hden : ((q.den : ℚ)) ≠ 0 := by exact_mod_cast q.den_nz
  have key : (q.num : ℚ) = q * (q.den : ℚ) := (div_eq_iff hden).1 (Rat.num_div_den q)
  have h : q + 1 / 2 = ((2 * q.num + (q.den : ℤ) : ℤ) : ℚ) / ((2 * q.den : ℕ) : ℚ) := by
    push_cast
    rw [eq_div_iff (by positivity)]
    linear_combination -2 * key
  rw [round_eq, h, Rat.floor_intCast_div_natCast, rnd]
  push_cast
  ring_nf

theorem abs_rnd_sub (q : ℚ) : |(rnd q : ℚ) - q| ≤ 1 / 2 := by
  rw [rnd_eq_round, abs_sub_comm]
  exact abs_sub_round q

/-- Two-digit zero-padded decimal, used for the fractional part of
`fmt2`. -/
def pad2 (n : ℕ) : String := if n < 10 then "0" ++ toString n else toString n

/-- Model of the fmt format `"{:.2f}"`: fixed two decimals, rounded to
nearest.  The value it denotes is `rnd (q * 100) / 100`. -/
def fmt2 (q : ℚ) : String :=
  let n : ℤ := rnd (q * 100)
  (if n < 0 then "-" else "") ++ toString (n.natAbs / 100) ++ "." ++ pad2 (n.natAbs % 100)

/-- Hexadecimal digit (uppercase), for the fmt format `"{:02X}"`. -/
def hexDig (n : ℕ) : Char := if n < 10 then Char.ofNat (48 + n) else Char.ofNat (55 + n)

/-- Model of the fmt format `"{:02X}"` for byte values. -/
def hex2 (n : ℕ) : String := String.mk [hexDig (n / 16 % 16), hexDig (n % 16)]

/-- Join a list of strings with a separator (no leading/trailing
separator), as the `it != begin()` pattern of the C++ loops produces. -/
def joinSep (sep : String) : List String → String
  | [] => ""
  | [x] => x
  | x :: y :: xs => x ++ sep ++ joinSep sep (y :: xs)

/-! ## Colors

Modelled from the spec (the header `draw_data.h` defining `color_t` and
the `color::` helpers is not under `src/`): a packed fixed-width value
carrying red/green/blue/alpha channels (0-255 each), extracted via pure
functions; "transparent" means alpha == 0.  The byte layout is the R
one visible from the renderers' usage: red in the low byte, then green,
then blue, then alpha. -/

/-- Packed 32-bit RGBA color value. -/
abbrev color_t := ℕ

namespace color

/-- Red channel (low byte). -/
def red (c : color_t) : ℕ := c % 256

/-- Green channel. -/
def green (c : color_t) : ℕ := c / 256 % 256

/-- Blue channel. -/
def blue (c : color_t) : ℕ := c / 65536 % 256

/-- Alpha channel (high byte). -/
def alpha (c : color_t) : ℕ := c / 16777216 % 256

/-- Build a packed color from the four channels. -/
def rgba (r g b a : ℕ) : color_t := r + 256 * g + 65536 * b + 16777216 * a

/-- Build an opaque packed color. -/
def rgb (r g b : ℕ) : color_t := rgba r g b 255

/-- Maximal byte value. -/
def byte_mask : ℕ := 255

/-- Byte value as a fraction of 255 (C++ `alpha / 255.0`). -/
def byte_frac (a : ℕ) : ℚ := (a : ℚ) / 255

/-- Transparency test: alpha equals 0. -/
def transparent (c : color_t) : Bool := alpha c == 0

end color

/-! ## Scene data model (modelled from the spec, `draw_data.h` is not
under `src/`; field and type names follow the renderers' usage). -/

/-- Two-dimensional point (`unigd::gvertex<double>`). -/
structure GVertex where
  x : ℚ
  y : ℚ
deriving DecidableEq

/-- Axis-aligned rectangle (`unigd::grect<double>`). -/
structure GRect where
  x : ℚ
  y : ℚ
  width : ℚ
  height : ℚ
deriving DecidableEq

/-- Stroke styling bundle (`renderers::LineInfo`). -/
structure LineInfo where
  col : color_t
  lwd : ℚ
  lty : ℤ
  lend : ℤ
  ljoin : ℤ
  lmitre : ℚ
deriving DecidableEq

/-- Dash code sentinel for blank lines (R `LTY_BLANK`). -/
def LTY_BLANK : ℤ := -1

/-- Dash code for solid lines (R `LTY_SOLID`). -/
def LTY_SOLID : ℤ := 0

/-- Line end constants (R graphics engine values). -/
def GC_ROUND_CAP : ℤ := 1

/-- Butt line end. -/
def GC_BUTT_CAP : ℤ := 2

/-- Square line end. -/
def GC_SQUARE_CAP : ℤ := 3

/-- Round line join. -/
def GC_ROUND_JOIN : ℤ := 1

/-- Mitre line join. -/
def GC_MITRE_JOIN : ℤ := 2

/-- Bevel line join. -/
def GC_BEVEL_JOIN : ℤ := 3

/-- Clipping region: identifier plus rectangle. -/
structure Clip where
  id : ℤ
  rect : GRect
deriving DecidableEq

/-- Font descriptor of a text draw call. -/
structure TextInfo where
  weight : ℤ
  features : String
  font_family : String
  fontsize : ℚ
  italic : Bool
  txtwidth_px : ℚ
deriving DecidableEq

/-- Tagged union of the eight draw-call variants.  Every variant
carries a `clip_id` referencing a `Clip` of the owning `Page`. -/
inductive DrawCall where
  | rect (clip_id : ℤ) (rect : GRect) (fill : color_t) (line : LineInfo)
  | text (clip_id : ℤ) (pos : GVertex) (rot : ℚ) (hadj : ℚ) (col : color_t)
      (str : String) (info : TextInfo)
  | circle (clip_id : ℤ) (pos : GVertex) (radius : ℚ) (fill : color_t) (line : LineInfo)
  | line (clip_id : ℤ) (orig : GVertex) (dest : GVertex) (line : LineInfo)
  | polyline (clip_id : ℤ) (points : List GVertex) (line : LineInfo)
  | polygon (clip_id : ℤ) (points : List GVertex) (fill : color_t) (line : LineInfo)
  | path (clip_id : ℤ) (points : List GVertex) (nper : List ℤ) (winding : Bool)
      (fill : color_t) (line : LineInfo)
  | raster (clip_id : ℤ) (rect : GRect) (rot : ℚ) (wh_x : ℤ) (wh_y : ℤ)
      (pixels : List ℕ) (interpolate : Bool)
deriving DecidableEq

/-- Clip reference of a draw call. -/
def DrawCall.clip_id : DrawCall → ℤ
  | .rect c _ _ _ => c
  | .text c _ _ _ _ _ _ => c
  | .circle c _ _ _ _ => c
  | .line c _ _ _ => c
  | .polyline c _ _ => c
  | .polygon c _ _ _ => c
  | .path c _ _ _ _ _ => c
  | .raster c _ _ _ _ _ _ => c

/-- One captured drawing surface: id, size, background fill, clip list
and ordered draw calls. -/
structure Page where
  id : ℤ
  size : GVertex
  fill : color_t
  cps : List Clip
  dcs : List DrawCall

/-- Modelled from the spec: `raster_base64` (declared in `base_64.h`,
which is not under `src/`) produces the base64 encoding of a PNG
rendering of the raster's pixel buffer.  The PNG container itself is
outside the repository; the model base64-encodes the raw pixel bytes,
which keeps the function a deterministic pure function of the raster
data as the spec requires.  No claim depends on the exact characters. -/
def base64_digit (n : ℕ) : Char :=
  if n < 26 then Char.ofNat (65 + n)
  else if n < 52 then Char.ofNat (97 + (n - 26))
  else if n < 62 then Char.ofNat (48 + (n - 52))
  else if n = 62 then Char.ofNat 43
  else Char.ofNat 47

/-- Base64 encoding of a byte list (with `=` padding). -/
def base64_go : List ℕ → List Char
  | [] => []
  | [a] => [base64_digit (a / 4), base64_digit (a % 4 * 16), Char.ofNat 61, Char.ofNat 61]
  | [a, b] => [base64_digit (a / 4), base64_digit (a % 4 * 16 + b / 16),
      base64_digit (b % 16 * 4), Char.ofNat 61]
  | a :: b :: c :: rest =>
      base64_digit (a / 4) :: base64_digit (a % 4 * 16 + b / 16) ::
      base64_digit (b % 16 * 4 + c / 64) :: base64_digit (c % 64) :: base64_go rest

/-- Modelled from the spec: base64 string for a raster pixel buffer
(stand-in for the PNG-encoding helper that is not under `src/`). -/
def raster_base64 (pixels : List ℕ) : String :=
  String.mk (base64_go (pixels.flatMap
    (fun w => [w % 256, w / 256 % 256, w / 65536 % 256, w / 16777216 % 256])))

end Unigd

namespace Unigd

/-! ## SVG renderer helpers (`renderer_svg.cpp`) -/

/-- Escape for one character, as in the `switch` of
`write_xml_escaped`: the five reserved markup characters become
entities, every other character passes through. -/
def esc_char (c : Char) : String :=
  if c = '&' then "&amp;"
  else if c = '<' then "&lt;"
  else if c = '>' then "&gt;"
  else if c = '"' then "&quot;"
  else if c = Char.ofNat 39 then "&apos;"
  else String.mk [c]

/-- Character-by-character escaping loop of `write_xml_escaped`
(renderer_svg.cpp, lines 17-42): one appended chunk per character. -/
def write_xml_escaped_go : List Char → String
  | [] => ""
  | c :: cs => esc_char c ++ write_xml_escaped_go cs

/-- Model of `write_xml_escaped` (renderer_svg.cpp, lines 17-42). -/
def write_xml_escaped (s : String) : String := write_xml_escaped_go s.data

/-- Model of `css_fill_or_none` (renderer_svg.cpp, lines 44-60). -/
def css_fill_or_none (col : color_t) : String :=
  let alpha := color.alpha col
  if alpha = 0 then "fill: none;"
  else "fill: #" ++ hex2 (color.red col) ++ hex2 (color.green col) ++ hex2 (color.blue col)
      ++ ";"
      ++ (if alpha ≠ 255 then "fill-opacity: " ++ fmt2 ((alpha : ℚ) / 255) ++ ";" else "")

/-- Model of `css_fill_or_omit` (renderer_svg.cpp, lines 62-74). -/
def css_fill_or_omit (col : color_t) : String :=
  let alpha := color.alpha col
  if alpha ≠ 0 then
    "fill: #" ++ hex2 (color.red col) ++ hex2 (color.green col) ++ hex2 (color.blue col)
      ++ ";"
      ++ (if alpha ≠ 255 then "fill-opacity: " ++ fmt2 ((alpha : ℚ) / 255) ++ ";" else "")
  else ""

/-- Model of `scale_lty` (renderer_svg.cpp, lines 76-81): the current
low nibble of the dash code scaled by `max(lwd, 1)` (no rescale for
`lwd < 1`).  C++ `lty & 15` on a (possibly negative) `int` is the low
nibble of the two's complement representation, i.e. `emod 16`. -/
def scale_lty (lty : ℤ) (lwd : ℚ) : ℚ :=
  (if lwd > 1 then lwd else 1) * ((lty.emod 16 : ℤ) : ℚ)

/-- Arithmetic right shift by four bits of a C++ `int` (`lty >>= 4`),
i.e. floor division by 16. -/
def shr4 (lty : ℤ) : ℤ := lty.fdiv 16

/-- Dash values produced by the tail of the SVG dash loop
(`for (int i = 1; i < 8 && lty & 15; i++)`, renderer_svg.cpp lines
122-126 and 508-512): at most `k` further nibbles, stopping at the
first zero nibble.  Called with `k = 7`. -/
def svg_dash_rest (lwd : ℚ) : ℤ → ℕ → List ℚ
  | _, 0 => []
  | lty, k + 1 =>
    if lty.emod 16 ≠ 0 then scale_lty lty lwd :: svg_dash_rest lwd (shr4 lty) k
    else []

/-- Dash values emitted by both SVG renderers for a line (empty for
solid and blank codes; otherwise the first nibble unconditionally,
then up to seven more nibbles, stopping at the first zero nibble). -/
def svg_dash_values (lty : ℤ) (lwd : ℚ) : List ℚ :=
  if lty = LTY_BLANK ∨ lty = LTY_SOLID then []
  else scale_lty lty lwd :: svg_dash_rest lwd (shr4 lty) 7

/-- Dash-array body of `css_lineinfo` and `att_lineinfo`: the emitted
numbers, comma separated (both loops print `", {:.2f}"`). -/
def svg_dash_string (lty : ℤ) (lwd : ℚ) : String :=
  joinSep ", " ((svg_dash_values lty lwd).map fmt2)

/-- Model of `css_lineinfo` (renderer_svg.cpp, lines 82-164): the
style-sheet-mode stroke properties of one shape. -/
def css_lineinfo (line : LineInfo) : String :=
  "stroke-width: " ++ fmt2 (line.lwd / 96 * 72) ++ ";"
  ++ (if line.col ≠ color.rgba 0 0 0 255 then
        let alpha := color.alpha line.col
        if alpha = 0 then "stroke: none;"
        else "stroke: #" ++ hex2 (color.red line.col) ++ hex2 (color.green line.col)
            ++ hex2 (color.blue line.col) ++ ";"
            ++ (if alpha ≠ color.byte_mask then
                  "stroke-opacity: " ++ fmt2 (color.byte_frac alpha) ++ ";"
                else "")
      else "")
  ++ (if line.lty = LTY_BLANK ∨ line.lty = LTY_SOLID then ""
      else " stroke-dasharray: " ++ svg_dash_string line.lty line.lwd ++ ";")
  ++ (if line.lend = GC_ROUND_CAP then ""
      else if line.lend = GC_BUTT_CAP then "stroke-linecap: butt;"
      else if line.lend = GC_SQUARE_CAP then "stroke-linecap: square;"
      else "")
  ++ (if line.ljoin = GC_ROUND_JOIN then ""
      else if line.ljoin = GC_BEVEL_JOIN then "stroke-linejoin: bevel;"
      else if line.ljoin = GC_MITRE_JOIN then
        "stroke-linejoin: miter;"
        ++ (if |line.lmitre - 10| > 1 / 1000 then
              "stroke-miterlimit: " ++ fmt2 line.lmitre ++ ";"
            else "")
      else "")

/-- Points attribute body shared by the polyline/polygon visitors:
space-separated `"{:.2f},{:.2f}"` pairs. -/
def svg_points (points : List GVertex) : String :=
  joinSep " " (points.map (fun v => fmt2 v.x ++ "," ++ fmt2 v.y))

/-- Path data of the `<path d="...">` attribute: the shared loop of
`RendererSVG::visit(const Path*)` and
`RendererSVGPortable::visit(const Path*)` (renderer_svg.cpp, lines
397-417 and 756-776).  `left` counts the remaining vertices of the
open sub-path; when it reaches zero a new sub-path starts by
dereferencing the `nper` iterator, which is undefined behaviour when
`nper` is exhausted (modelled as `none`).  The C++ `std::size_t left =
(*it_poly) - 1` wraps modulo `2^64` for non-positive counts. -/
def path_d_go : List ℤ → ℕ → List GVertex → Option String
  | _, _, [] => some ""
  | npers, 0, pt :: rest =>
    match npers with
    | [] => none
    | n :: ns =>
      (path_d_go ns (((n - 1).emod (2 ^ 64)).toNat) rest).map
        (fun s => "M" ++ fmt2 pt.x ++ " " ++ fmt2 pt.y ++ s)
  | npers, left + 1, pt :: rest =>
    (path_d_go npers left rest).map
      (fun s => "L" ++ fmt2 pt.x ++ " " ++ fmt2 pt.y
        ++ (if left = 0 then "Z" else "") ++ s)

/-- Path data attribute for a full path draw call. -/
def path_d (nper : List ℤ) (points : List GVertex) : Option String :=
  path_d_go nper 0 points

end Unigd

namespace Unigd

/-! ## Style-sheet SVG renderer (`RendererSVG`) -/

/-- Shape of the text element shared by both SVG visitors up to the
styling block: coordinates or rotation transform, then anchoring. -/
def svg_text_open (pos : GVertex) (rot hadj : ℚ) : String :=
  (if rot = 0 then "x=\"" ++ fmt2 pos.x ++ "\" y=\"" ++ fmt2 pos.y ++ "\" "
   else "transform=\"translate(" ++ fmt2 pos.x ++ "," ++ fmt2 pos.y ++ ") rotate("
      ++ fmt2 (rot * -1) ++ ")\" ")
  ++ (if hadj = 1 / 2 then "text-anchor=\"middle\" "
      else if hadj = 1 then "text-anchor=\"end\" "
      else "")

/-- Model of `RendererSVG::visit(const Text*)` (lines 251-317). -/
def svg_visit_text (pos : GVertex) (rot hadj : ℚ) (col : color_t) (str : String)
    (info : TextInfo) : String :=
  "<g><text " ++ svg_text_open pos rot hadj
  ++ "style=\"" ++ "font-family: " ++ info.font_family ++ ";font-size: "
  ++ fmt2 info.fontsize ++ "px;"
  ++ (if info.weight ≠ 400 then
        if info.weight = 700 then "font-weight: bold;"
        else "font-weight: " ++ toString info.weight ++ ";"
      else "")
  ++ (if info.italic then "font-style: italic;" else "")
  ++ (if col ≠ color.rgb 0 0 0 then css_fill_or_none col else "")
  ++ (if info.features.length > 0 then
        "font-feature-settings: " ++ info.features ++ ";"
      else "")
  ++ "\""
  ++ (if info.txtwidth_px > 0 then
        " textLength=\"" ++ fmt2 info.txtwidth_px ++ "px\" lengthAdjust=\"spacingAndGlyphs\""
      else "")
  ++ ">" ++ write_xml_escaped str ++ "</text></g>"

/-- Model of `RendererSVG::visit(const Circle*)` (lines 319-329). -/
def svg_visit_circle (pos : GVertex) (radius : ℚ) (fill : color_t) (line : LineInfo) :
    String :=
  "<circle " ++ "cx=\"" ++ fmt2 pos.x ++ "\" cy=\"" ++ fmt2 pos.y ++ "\" r=\""
  ++ fmt2 radius ++ "\" "
  ++ "style=\"" ++ css_lineinfo line ++ css_fill_or_omit fill ++ "\"/>"

/-- Model of `RendererSVG::visit(const Line*)` (lines 331-341). -/
def svg_visit_line (orig dest : GVertex) (line : LineInfo) : String :=
  "<line " ++ "x1=\"" ++ fmt2 orig.x ++ "\" y1=\"" ++ fmt2 orig.y ++ "\" x2=\""
  ++ fmt2 dest.x ++ "\" y2=\"" ++ fmt2 dest.y ++ "\" "
  ++ "style=\"" ++ css_lineinfo line ++ "\"/>"

/-- Model of `RendererSVG::visit(const Rect*)` (lines 343-354). -/
def svg_visit_rect (r : GRect) (fill : color_t) (line : LineInfo) : String :=
  "<rect " ++ "x=\"" ++ fmt2 r.x ++ "\" y=\"" ++ fmt2 r.y ++ "\" width=\""
  ++ fmt2 r.width ++ "\" height=\"" ++ fmt2 r.height ++ "\" "
  ++ "style=\"" ++ css_lineinfo line ++ css_fill_or_omit fill ++ "\"/>"

/-- Model of `RendererSVG::visit(const Polyline*)` (lines 356-370). -/
def svg_visit_polyline (points : List GVertex) (line : LineInfo) : String :=
  "<polyline points=\"" ++ svg_points points ++ "\" style=\"" ++ css_lineinfo line
  ++ "\"/>"

/-- Model of `RendererSVG::visit(const Polygon*)` (lines 372-391). -/
def svg_visit_polygon (points : List GVertex) (fill : color_t) (line : LineInfo) :
    String :=
  "<polygon points=\"" ++ svg_points points ++ "\" " ++ "style=\"" ++ css_lineinfo line
  ++ css_fill_or_omit fill ++ "\" " ++ "/>"

/-- Model of `RendererSVG::visit(const Path*)` (lines 393-426). -/
def svg_visit_path (points : List GVertex) (nper : List ℤ) (winding : Bool)
    (fill : color_t) (line : LineInfo) : Option String :=
  (path_d nper points).map (fun d =>
    "<path d=\"" ++ d ++ "\" style=\"" ++ css_lineinfo line ++ css_fill_or_omit fill
    ++ "fill-rule: " ++ (if winding then "nonzero" else "evenodd") ++ ";\"/>")

/-- Shape of the raster image element shared by both SVG visitors. -/
def svg_visit_raster (r : GRect) (rot : ℚ) (pixels : List ℕ) (interpolate : Bool) :
    String :=
  "<g><image " ++ " x=\"" ++ fmt2 r.x ++ "\" y=\"" ++ fmt2 r.y ++ "\" width=\""
  ++ fmt2 r.width ++ "\" height=\"" ++ fmt2 r.height ++ "\" "
  ++ "preserveAspectRatio=\"none\" "
  ++ (if !interpolate then "image-rendering=\"pixelated\" " else "")
  ++ (if rot ≠ 0 then
        "transform=\"rotate(" ++ fmt2 (-1 * rot) ++ "," ++ fmt2 r.x ++ "," ++ fmt2 r.y
        ++ ")\" "
      else "")
  ++ " xlink:href=\"data:image/png;base64," ++ raster_base64 pixels ++ "\"/></g>"

/-- Dispatch of `dc->visit(this)` for the style-sheet SVG renderer.
Only the path visitor can fail (malformed `nper`). -/
def svg_visit : DrawCall → Option String
  | .rect _ r fill line => some (svg_visit_rect r fill line)
  | .text _ pos rot hadj col str info => some (svg_visit_text pos rot hadj col str info)
  | .circle _ pos radius fill line => some (svg_visit_circle pos radius fill line)
  | .line _ orig dest line => some (svg_visit_line orig dest line)
  | .polyline _ points line => some (svg_visit_polyline points line)
  | .polygon _ points fill line => some (svg_visit_polygon points fill line)
  | .path _ points nper winding fill line => svg_visit_path points nper winding fill line
  | .raster _ r rot _ _ pixels interpolate =>
      some (svg_visit_raster r rot pixels interpolate)

/-- Opening grouping element for the initial clip (renderer_svg.cpp,
lines 231-234). -/
def svg_open_first (id : ℤ) : String :=
  "<g clip-path=\"url(#c" ++ toString id ++ ")\">\n"

/-- Closing-plus-opening grouping element emitted on a clip change
(renderer_svg.cpp, lines 239-242). -/
def svg_open_next (id : ℤ) : String :=
  "</g><g clip-path=\"url(#c" ++ toString id ++ ")\">\n"

/-- Draw-call loop of `RendererSVG::page` (lines 235-247): emits a new
grouping element whenever the clip id differs from the active one,
then the visited shape and a newline. -/
def svg_dc_loop : ℤ → List DrawCall → Option (List String)
  | _, [] => some []
  | last_id, dc :: dcs =>
    if dc.clip_id ≠ last_id then
      (svg_visit dc).bind (fun v =>
        (svg_dc_loop dc.clip_id dcs).map (fun rest =>
          svg_open_next dc.clip_id :: v :: "\n" :: rest))
    else
      (svg_visit dc).bind (fun v =>
        (svg_dc_loop last_id dcs).map (fun rest => v :: "\n" :: rest))

/-- Clip-path definition element of the style-sheet SVG header
(renderer_svg.cpp, lines 210-217). -/
def svg_clip_def (cp : Clip) : String :=
  "<clipPath id=\"c" ++ toString cp.id ++ "\"><rect x=\"" ++ fmt2 cp.rect.x ++ "\" y=\""
  ++ fmt2 cp.rect.y ++ "\" width=\"" ++ fmt2 cp.rect.width ++ "\" height=\""
  ++ fmt2 cp.rect.height ++ "\"/></clipPath>\n"

/-- Fixed style sheet of the SVG header (renderer_svg.cpp, lines
193-203). -/
def svg_style_head : String :=
  ">\n<defs>\n  <style type=\x27text/css\x27><![CDATA[\n    .httpgd line, .httpgd polyline, .httpgd polygon, .httpgd path, .httpgd rect, .httpgd circle \x7b\n      fill: none;\n      stroke: #000000;\n      stroke-linecap: round;\n      stroke-linejoin: round;\n      stroke-miterlimit: 10.00;\n    \x7d\n"

/-- Model of `RendererSVG::page` (renderer_svg.cpp, lines 183-249),
with the renderer's optional extra CSS.  The output is the ordered
list of buffer writes; reading `t_page.cps.front()` of an empty clip
list is undefined behaviour and yields `none`. -/
def svg_page_pieces (extra_css : Option String) (p : Page) (scale : ℚ) :
    Option (List String) :=
  match p.cps with
  | [] => none
  | c0 :: _ =>
    (svg_dc_loop c0.id p.dcs).map (fun body =>
      "<svg xmlns=\"http://www.w3.org/2000/svg\" xmlns:xlink=\"http://www.w3.org/1999/xlink\" class=\"httpgd\" "
      :: ("width=\"" ++ fmt2 (p.size.x * scale) ++ "\" height=\"" ++ fmt2 (p.size.y * scale)
          ++ "\" viewBox=\"0 0 " ++ fmt2 p.size.x ++ " " ++ fmt2 p.size.y ++ "\"")
      :: svg_style_head
      :: (match extra_css with
          | some css => [css ++ "\n"]
          | none => [])
      ++ "  ]]></style>\n"
      :: p.cps.map svg_clip_def
      ++ "</defs>\n<rect width=\"100%\" height=\"100%\" style=\"stroke: none;"
      :: css_fill_or_none p.fill
      :: "\"/>\n"
      :: svg_open_first c0.id
      :: body
      ++ ["</g>\n</svg>"])

/-- Model of `RendererSVG::render` plus `get_data`: the byte buffer as
one string. -/
def svg_render (extra_css : Option String) (p : Page) (scale : ℚ) : Option String :=
  (svg_page_pieces extra_css p scale).map String.join

end Unigd

namespace Unigd

/-! ## Portable SVG renderer (`RendererSVGPortable`) -/

/-- Model of `att_fill_or_none` (renderer_svg.cpp, lines 456-473). -/
def att_fill_or_none (col : color_t) : String :=
  let alpha := color.alpha col
  if alpha = 0 then " fill=\"none\""
  else " fill=\"#" ++ hex2 (color.red col) ++ hex2 (color.green col)
      ++ hex2 (color.blue col) ++ "\""
      ++ (if alpha ≠ color.byte_mask then
            " fill-opacity=\"" ++ fmt2 (color.byte_frac alpha) ++ "\""
          else "")

/-- Model of `att_lineinfo` (renderer_svg.cpp, lines 475-553). -/
def att_lineinfo (line : LineInfo) : String :=
  "stroke-width=\"" ++ fmt2 (line.lwd / 96 * 72) ++ "\""
  ++ (let alpha := color.alpha line.col
      if alpha ≠ 0 then
        " stroke=\"#" ++ hex2 (color.red line.col) ++ hex2 (color.green line.col)
        ++ hex2 (color.blue line.col) ++ "\""
        ++ (if alpha ≠ color.byte_mask then
              " stroke-opacity=\"" ++ fmt2 (color.byte_frac alpha) ++ "\""
            else "")
      else "")
  ++ (if line.lty = LTY_BLANK ∨ line.lty = LTY_SOLID then ""
      else " stroke-dasharray=\"" ++ svg_dash_string line.lty line.lwd ++ "\"")
  ++ (if line.lend = GC_ROUND_CAP then " stroke-linecap=\"round\""
      else if line.lend = GC_BUTT_CAP then ""
      else if line.lend = GC_SQUARE_CAP then " stroke-linecap=\"square\""
      else "")
  ++ (if line.ljoin = GC_ROUND_JOIN then " stroke-linejoin=\"round\""
      else if line.ljoin = GC_BEVEL_JOIN then " stroke-linejoin=\"bevel\""
      else if line.ljoin = GC_MITRE_JOIN then
        (if |line.lmitre - 4| > 1 / 1000 then
          " stroke-miterlimit=\"" ++ fmt2 line.lmitre ++ "\""
        else "")
      else "")

/-- Model of `RendererSVGPortable::visit(const Rect*)` (lines 618-628). -/
def port_visit_rect (r : GRect) (fill : color_t) (line : LineInfo) : String :=
  "<rect " ++ "x=\"" ++ fmt2 r.x ++ "\" y=\"" ++ fmt2 r.y ++ "\" width=\""
  ++ fmt2 r.width ++ "\" height=\"" ++ fmt2 r.height ++ "\" "
  ++ att_lineinfo line ++ att_fill_or_none fill ++ "/>"

/-- Model of `RendererSVGPortable::visit(const Text*)` (lines 630-695). -/
def port_visit_text (pos : GVertex) (rot hadj : ℚ) (col : color_t) (str : String)
    (info : TextInfo) : String :=
  "<g><text " ++ svg_text_open pos rot hadj
  ++ "font-family=\"" ++ info.font_family ++ "\" font-size=\"" ++ fmt2 info.fontsize
  ++ "px\""
  ++ (if info.weight ≠ 400 then
        if info.weight = 700 then " font-weight=\"bold\""
        else " font-weight=\"" ++ toString info.weight ++ "\""
      else "")
  ++ (if info.italic then " font-style=\"italic\"" else "")
  ++ (if col ≠ color.rgb 0 0 0 then att_fill_or_none col else "")
  ++ (if info.features.length > 0 then
        " font-feature-settings=\"" ++ info.features ++ "\""
      else "")
  ++ (if info.txtwidth_px > 0 then
        " textLength=\"" ++ fmt2 info.txtwidth_px ++ "px\" lengthAdjust=\"spacingAndGlyphs\""
      else "")
  ++ ">" ++ write_xml_escaped str ++ "</text></g>"

/-- Model of `RendererSVGPortable::visit(const Circle*)` (lines 697-706). -/
def port_visit_circle (pos : GVertex) (radius : ℚ) (fill : color_t) (line : LineInfo) :
    String :=
  "<circle " ++ "cx=\"" ++ fmt2 pos.x ++ "\" cy=\"" ++ fmt2 pos.y ++ "\" r=\""
  ++ fmt2 radius ++ "\" "
  ++ att_lineinfo line ++ att_fill_or_none fill ++ "/>"

/-- Model of `RendererSVGPortable::visit(const Line*)` (lines 708-717). -/
def port_visit_line (orig dest : GVertex) (line : LineInfo) : String :=
  "<line " ++ "x1=\"" ++ fmt2 orig.x ++ "\" y1=\"" ++ fmt2 orig.y ++ "\" x2=\""
  ++ fmt2 dest.x ++ "\" y2=\"" ++ fmt2 dest.y ++ "\" "
  ++ att_lineinfo line ++ "/>"

/-- Model of `RendererSVGPortable::visit(const Polyline*)` (lines 719-733). -/
def port_visit_polyline (points : List GVertex) (line : LineInfo) : String :=
  "<polyline points=\"" ++ svg_points points ++ "\" fill=\"none\" "
  ++ att_lineinfo line ++ "/>"

/-- Model of `RendererSVGPortable::visit(const Polygon*)` (lines 735-750). -/
def port_visit_polygon (points : List GVertex) (fill : color_t) (line : LineInfo) :
    String :=
  "<polygon points=\"" ++ svg_points points ++ "\" " ++ att_lineinfo line
  ++ att_fill_or_none fill ++ "/>"

/-- Model of `RendererSVGPortable::visit(const Path*)` (lines 752-785). -/
def port_visit_path (points : List GVertex) (nper : List ℤ) (winding : Bool)
    (fill : color_t) (line : LineInfo) : Option String :=
  (path_d nper points).map (fun d =>
    "<path d=\"" ++ d ++ "\" " ++ att_lineinfo line ++ att_fill_or_none fill
    ++ " fill-rule=\"" ++ (if winding then "nonzero" else "evenodd") ++ "\"/>")

/-- Dispatch of `dc->visit(this)` for the portable SVG renderer (the
raster visitor, lines 787-811, is identical to the style-sheet one). -/
def port_visit : DrawCall → Option String
  | .rect _ r fill line => some (port_visit_rect r fill line)
  | .text _ pos rot hadj col str info => some (port_visit_text pos rot hadj col str info)
  | .circle _ pos radius fill line => some (port_visit_circle pos radius fill line)
  | .line _ orig dest line => some (port_visit_line orig dest line)
  | .polyline _ points line => some (port_visit_polyline points line)
  | .polygon _ points fill line => some (port_visit_polygon points fill line)
  | .path _ points nper winding fill line => port_visit_path points nper winding fill line
  | .raster _ r rot _ _ pixels interpolate =>
      some (svg_visit_raster r rot pixels interpolate)

/-- Opening grouping element for the initial clip in portable mode
(lines 598-601): the clip-path id carries the per-render token. -/
def port_open_first (id : ℤ) (tok : String) : String :=
  "<g clip-path=\"url(#c" ++ toString id ++ "-" ++ tok ++ ")\">\n"

/-- Grouping element emitted on a clip change in portable mode (lines
606-609). -/
def port_open_next (id : ℤ) (tok : String) : String :=
  "</g><g clip-path=\"url(#c" ++ toString id ++ "-" ++ tok ++ ")\">\n"

/-- Draw-call loop of `RendererSVGPortable::page` (lines 602-614). -/
def port_dc_loop (tok : String) : ℤ → List DrawCall → Option (List String)
  | _, [] => some []
  | last_id, dc :: dcs =>
    if dc.clip_id ≠ last_id then
      (port_visit dc).bind (fun v =>
        (port_dc_loop tok dc.clip_id dcs).map (fun rest =>
          port_open_next dc.clip_id tok :: v :: "\n" :: rest))
    else
      (port_visit dc).bind (fun v =>
        (port_dc_loop tok last_id dcs).map (fun rest => v :: "\n" :: rest))

/-- Clip-path definition element in portable mode (lines 582-589): the
id carries the per-render token. -/
def port_clip_def (tok : String) (cp : Clip) : String :=
  "<clipPath id=\"c" ++ toString cp.id ++ "-" ++ tok ++ "\"><rect x=\"" ++ fmt2 cp.rect.x
  ++ "\" y=\"" ++ fmt2 cp.rect.y ++ "\" width=\"" ++ fmt2 cp.rect.width ++ "\" height=\""
  ++ fmt2 cp.rect.height ++ "\"/></clipPath>\n"

/-- Background rectangle of the portable page (lines 591-595): always
filled with the page fill color's RGB channels. -/
def port_background (fill : color_t) : String :=
  "<rect width=\"100%\" height=\"100%\" stroke=\"none\" fill=\"#" ++ hex2 (color.red fill)
  ++ hex2 (color.green fill) ++ hex2 (color.blue fill) ++ "\"/>\n"

/-- Model of `RendererSVGPortable::page` (lines 570-616).  `tok` is the
unique id drawn by `render` (line 559); reading `cps.front()` of an
empty clip list is undefined behaviour and yields `none`. -/
def port_page_pieces (tok : String) (p : Page) (scale : ℚ) : Option (List String) :=
  match p.cps with
  | [] => none
  | c0 :: _ =>
    (port_dc_loop tok c0.id p.dcs).map (fun body =>
      "<svg xmlns=\"http://www.w3.org/2000/svg\" xmlns:xlink=\"http://www.w3.org/1999/xlink\" class=\"httpgd\" "
      :: ("width=\"" ++ fmt2 (p.size.x * scale) ++ "\" height=\"" ++ fmt2 (p.size.y * scale)
          ++ "\" viewBox=\"0 0 " ++ fmt2 p.size.x ++ " " ++ fmt2 p.size.y
          ++ "\">\n<defs>\n")
      :: p.cps.map (port_clip_def tok)
      ++ "</defs>\n"
      :: port_background p.fill
      :: port_open_first c0.id tok
      :: body
      ++ ["</g>\n</svg>"])

/-- Model of `RendererSVGPortable::render` plus `get_data`: the byte
buffer as one string, as a function of the drawn unique token. -/
def port_render (tok : String) (p : Page) (scale : ℚ) : Option String :=
  (port_page_pieces tok p scale).map String.join

end Unigd

namespace Unigd

/-! ## Structured JSON renderer (`renderer_json.cpp`) -/

/-- Model of `hexcol` (renderer_json.cpp, lines 10-14): six-hex-digit
color string; the alpha channel is not emitted. -/
def hexcol (c : color_t) : String :=
  "#" ++ hex2 (color.red c) ++ hex2 (color.green c) ++ hex2 (color.blue c)

/-- C++ `static_cast<int>` on a floating value: truncation toward
zero. -/
def cppIntCast (q : ℚ) : ℤ := q.num.tdiv q.den

/-- Model of `json_lineinfo` (renderer_json.cpp, lines 16-22).  Note
the `static_cast<int>` on the float `lmitre`. -/
def json_lineinfo (line : LineInfo) : String :=
  "\x7b \"col\": \"" ++ hexcol line.col ++ "\", \"lwd\": " ++ fmt2 line.lwd
  ++ ", \"lty\": " ++ toString line.lty ++ ", \"lend\": " ++ toString line.lend
  ++ ", \"ljoin\": " ++ toString line.ljoin ++ ", \"lmitre\": "
  ++ toString (cppIntCast line.lmitre) ++ " \x7d"

/-- Model of `json_verts` (renderer_json.cpp, lines 24-37). -/
def json_verts (verts : List GVertex) : String :=
  "[" ++ joinSep ", " (verts.map (fun v => "[ " ++ fmt2 v.x ++ ", " ++ fmt2 v.y ++ " ]"))
  ++ "]"

/-- Leading part of the JSON text record, everything before the raw
string content (renderer_json.cpp, lines 95-105). -/
def json_text_before (clip_id : ℤ) (pos : GVertex) (rot hadj : ℚ) (col : color_t) :
    String :=
  "\"type\": \"text\", \"clip_id\": " ++ toString clip_id ++ ", \"x\": " ++ fmt2 pos.x
  ++ ", \"y\": " ++ fmt2 pos.y ++ ", \"rot\": " ++ fmt2 rot ++ ", \"hadj\": " ++ fmt2 hadj
  ++ ", \"col\": \"" ++ hexcol col ++ "\", \"str\": \""

/-- Trailing part of the JSON text record, everything after the raw
string content. -/
def json_text_after (info : TextInfo) : String :=
  "\", \"weight\": " ++ toString info.weight ++ ", \"features\": \"" ++ info.features
  ++ "\", \"font_family\": \"" ++ info.font_family ++ "\", \"fontsize\": "
  ++ fmt2 info.fontsize ++ ", \"italic\": " ++ toString info.italic
  ++ ", \"txtwidth_px\": " ++ fmt2 info.txtwidth_px

/-- Dispatch of `dc->visit(this)` for the JSON renderer
(renderer_json.cpp, lines 86-169): one record body per draw call.  The
text string and font fields are spliced in verbatim, with no escaping. -/
def json_visit : DrawCall → String
  | .rect clip_id r _fill line =>
      "\"type\": \"rect\", \"clip_id\": " ++ toString clip_id ++ ", \"x\": " ++ fmt2 r.x
      ++ ", \"y\": " ++ fmt2 r.y ++ ", \"w\": " ++ fmt2 r.width ++ ", \"h\": "
      ++ fmt2 r.height ++ ", \"line\": " ++ json_lineinfo line
  | .text clip_id pos rot hadj col str info =>
      json_text_before clip_id pos rot hadj col ++ str ++ json_text_after info
  | .circle clip_id pos radius fill line =>
      "\"type\": \"circle\", \"clip_id\": " ++ toString clip_id ++ ", \"x\": "
      ++ fmt2 pos.x ++ ", \"y\": " ++ fmt2 pos.y ++ ", \"r\": " ++ fmt2 radius
      ++ ", \"fill\": \"" ++ hexcol fill ++ "\", \"line\": " ++ json_lineinfo line
  | .line clip_id orig dest line =>
      "\"type\": \"line\", \"clip_id\": " ++ toString clip_id ++ ", \"x0\": "
      ++ fmt2 orig.x ++ ", \"y0\": " ++ fmt2 orig.y ++ ", \"x1\": " ++ fmt2 dest.x
      ++ ", \"y1\": " ++ fmt2 dest.y ++ ", \"line\": " ++ json_lineinfo line
  | .polyline clip_id points line =>
      "\"type\": \"polyline\", \"clip_id\": " ++ toString clip_id ++ ", \"line\": "
      ++ json_lineinfo line ++ ", \"points\": " ++ json_verts points
  | .polygon clip_id points fill line =>
      "\"type\": \"polygon\", \"clip_id\": " ++ toString clip_id ++ ", \"fill\": \""
      ++ hexcol fill ++ "\", \"line\": " ++ json_lineinfo line ++ ", \"points\": "
      ++ json_verts points
  | .path clip_id points nper _winding fill line =>
      "\"type\": \"path\", \"clip_id\": " ++ toString clip_id ++ ", \"fill\": \""
      ++ hexcol fill ++ "\", \"line\": " ++ json_lineinfo line ++ ", \"nper\": "
      ++ "[" ++ joinSep ", " (nper.map toString) ++ "], \"points\": "
      ++ json_verts points
  | .raster clip_id r rot wh_x wh_y pixels _interpolate =>
      "\"type\": \"raster\", \"clip_id\": " ++ toString clip_id ++ ", \"x\": " ++ fmt2 r.x
      ++ ", \"y\": " ++ fmt2 r.y ++ ", \"w\": " ++ fmt2 r.width ++ ", \"h\": "
      ++ fmt2 r.height ++ ", \"rot\": " ++ fmt2 rot ++ ", \"raster\": \x7b \"w\": "
      ++ toString wh_x ++ ", \"h\": " ++ toString wh_y ++ ", \"data\": \""
      ++ raster_base64 pixels ++ "\" \x7d"

/-- Clip record of the JSON page (renderer_json.cpp, lines 66-69). -/
def json_clip (cp : Clip) : String :=
  "\x7b \"id\": " ++ toString cp.id ++ ", \"x\": " ++ fmt2 cp.rect.x ++ ", \"y\": "
  ++ fmt2 cp.rect.y ++ ", \"w\": " ++ fmt2 cp.rect.width ++ ", \"h\": "
  ++ fmt2 cp.rect.height ++ " \x7d"

/-- Model of `RendererJSON::page` (renderer_json.cpp, lines 51-84).
The JSON page renderer never reads `cps.front()`, so it is total. -/
def json_page (p : Page) (scale : ℚ) : String :=
  "\x7b\n \"id\": \"" ++ toString p.id ++ "\", \"w\": " ++ fmt2 p.size.x ++ ", \"h\": "
  ++ fmt2 p.size.y ++ ", \"scale\": " ++ fmt2 scale ++ ", \"fill\": \"" ++ hexcol p.fill
  ++ "\",\n"
  ++ " \"clips\": [\n  " ++ joinSep ",\n  " (p.cps.map json_clip)
  ++ "\n ],\n \"draw_calls\": [\n  "
  ++ joinSep ",\n  " (p.dcs.map (fun dc => "\x7b " ++ json_visit dc ++ " \x7d"))
  ++ "\n ]\n\x7d"

/-- Model of `RendererJSON::render` plus `get_data`. -/
def json_render (p : Page) (scale : ℚ) : String := json_page p scale

end Unigd

namespace Unigd

/-! ## Cairo raster backend (`renderer_cairo.cpp`)

Calls into the Cairo painter API are modelled as an explicit operation
trace; the geometry arguments are recorded as passed. -/

/-- One Cairo painter-API call. -/
inductive CairoOp where
  | new_path
  | rectangle (x y w h : ℚ)
  | set_source_rgb (r g b : ℚ)
  | set_source_rgba (r g b a : ℚ)
  | fill
  | fill_preserve
  | stroke
  | clip
  | reset_clip
  | move_to (x y : ℚ)
  | line_to (x y : ℚ)
  | close_path
  | arc (x y radius a1 a2 : ℚ)
  | set_line_width (w : ℚ)
  | set_line_cap (c : ℕ)
  | set_line_join (j : ℕ)
  | set_miter_limit (m : ℚ)
  | set_dash (ds : List ℚ)
  | save
  | restore
  | select_font_face (family : String) (italic : Bool) (bold : Bool)
  | set_font_size (s : ℚ)
  | text_extents (s : String)
  | rotate (a : ℚ)
  | rel_move_by_advance (hadj : ℚ)
  | show_text (s : String)
  | translate (x y : ℚ)
  | scale (x y : ℚ)
  | set_source_surface
  | pattern_filter_bilinear
  | pattern_filter_nearest
  | pattern_extend_pad
  | paint
deriving DecidableEq

/-- Cairo line cap constants. -/
def CAIRO_LINE_CAP_BUTT : ℕ := 0

/-- Cairo round cap. -/
def CAIRO_LINE_CAP_ROUND : ℕ := 1

/-- Cairo square cap. -/
def CAIRO_LINE_CAP_SQUARE : ℕ := 2

/-- Cairo mitre join. -/
def CAIRO_LINE_JOIN_MITER : ℕ := 0

/-- Cairo round join. -/
def CAIRO_LINE_JOIN_ROUND : ℕ := 1

/-- Cairo bevel join. -/
def CAIRO_LINE_JOIN_BEVEL : ℕ := 2

/-- Model of `set_color` (renderer_cairo.cpp, lines 25-42). -/
def cairo_set_color (col : color_t) : CairoOp :=
  let alpha := color.alpha col
  if alpha = color.byte_mask then
    .set_source_rgb (color.byte_frac (color.red col)) (color.byte_frac (color.green col))
      (color.byte_frac (color.blue col))
  else
    .set_source_rgba (color.byte_frac (color.red col)) (color.byte_frac (color.green col))
      (color.byte_frac (color.blue col)) (color.byte_frac alpha)

/-- C++ conversion of an `int` dash code to `unsigned int`
(`unsigned int dt = line.lty`): reduction modulo `2^32`. -/
def toU32 (i : ℤ) : ℕ := (i.emod 4294967296).toNat

/-- Dash entries of the Cairo dash loop (renderer_cairo.cpp, line 88):
`for (l = 0; dt != 0; dt >>= 4, l++) ls[l] = (dt & 0xF) * lwd / 96.0 *
72;`.  The loop consumes one low nibble per step, zero nibbles
included, and stops when the whole remaining value is zero.  Because
`dt` shrinks by a factor of 16 each step, `fuel` iterations suffice
whenever `dt < 16 ^ fuel`; `cairo_dash_loop` supplies fuel `8`, enough
for every 32-bit value. -/
def cairo_dash_go (lwd96 : ℚ) : ℕ → ℕ → List ℚ
  | 0, _ => []
  | _ + 1, 0 => []
  | fuel + 1, dt => ((dt % 16 : ℕ) : ℚ) * lwd96 / 96 * 72 :: cairo_dash_go lwd96 fuel (dt / 16)

/-- Cairo dash entries for an unsigned 32-bit dash value. -/
def cairo_dash_loop (lwd96 : ℚ) (dt : ℕ) : List ℚ := cairo_dash_go lwd96 8 dt

/-- Dash entries passed to `cairo_set_dash` by `set_linetype`
(renderer_cairo.cpp, lines 77-90): empty for blank and solid codes. -/
def cairo_dash_values (lty : ℤ) (lwd : ℚ) : List ℚ :=
  if lty = LTY_BLANK ∨ lty = LTY_SOLID then []
  else cairo_dash_loop (if lwd > 1 then lwd else 1) (toU32 lty)

/-- Model of `set_linetype` (renderer_cairo.cpp, lines 44-91). -/
def cairo_set_linetype (line : LineInfo) : List CairoOp :=
  let lcap := if line.lend = GC_ROUND_CAP then CAIRO_LINE_CAP_ROUND
    else if line.lend = GC_BUTT_CAP then CAIRO_LINE_CAP_BUTT
    else if line.lend = GC_SQUARE_CAP then CAIRO_LINE_CAP_SQUARE
    else CAIRO_LINE_CAP_SQUARE
  let ljoin := if line.ljoin = GC_ROUND_JOIN then CAIRO_LINE_JOIN_ROUND
    else if line.ljoin = GC_MITRE_JOIN then CAIRO_LINE_JOIN_MITER
    else if line.ljoin = GC_BEVEL_JOIN then CAIRO_LINE_JOIN_BEVEL
    else CAIRO_LINE_JOIN_ROUND
  [.set_line_width ((if line.lwd > 1 / 100 then line.lwd else 1 / 100) / 96 * 72),
   .set_line_cap lcap, .set_line_join ljoin, .set_miter_limit line.lmitre,
   .set_dash (cairo_dash_values line.lty line.lwd)]

/-- Model of `RendererCairo::visit(const Rect*)` (lines 130-151). -/
def cairo_visit_rect (r : GRect) (fill : color_t) (line : LineInfo) : List CairoOp :=
  [.new_path, .rectangle r.x r.y r.width r.height]
  ++ (if !color.transparent fill then [cairo_set_color fill, .fill_preserve] else [])
  ++ (if !color.transparent line.col ∧ line.lty ≠ LTY_BLANK then
        cairo_set_linetype line ++ [cairo_set_color line.col, .stroke]
      else [])

/-- Model of `RendererCairo::visit(const Text*)` (lines 153-185). -/
def cairo_visit_text (pos : GVertex) (rot hadj : ℚ) (col : color_t) (str : String)
    (info : TextInfo) : List CairoOp :=
  if color.transparent col then []
  else
    [.save,
     .select_font_face info.font_family info.italic (info.weight ≥ 700),
     .set_font_size info.fontsize,
     .move_to pos.x pos.y]
    ++ (if hadj ≠ 0 ∨ rot ≠ 0 then
          [.text_extents str]
          ++ (if rot ≠ 0 then [.rotate (-rot / 180 * 314159265358979323846 / 100000000000000000000)] else [])
          ++ (if hadj ≠ 0 then [.rel_move_by_advance hadj] else [])
        else [])
    ++ [cairo_set_color col, .show_text str, .restore]

/-- Model of `RendererCairo::visit(const Circle*)` (lines 187-205). -/
def cairo_visit_circle (pos : GVertex) (radius : ℚ) (fill : color_t) (line : LineInfo) :
    List CairoOp :=
  [.new_path,
   .arc pos.x pos.y (if radius > 1 / 2 then radius else 1 / 2) 0
     (2 * 314159265358979323846 / 100000000000000000000)]
  ++ (if !color.transparent fill then [cairo_set_color fill, .fill_preserve] else [])
  ++ (if !color.transparent line.col ∧ line.lty ≠ LTY_BLANK then
        cairo_set_linetype line ++ [cairo_set_color line.col, .stroke]
      else [])

/-- Model of `RendererCairo::visit(const Line*)` (lines 207-220). -/
def cairo_visit_line (orig dest : GVertex) (line : LineInfo) : List CairoOp :=
  if color.transparent line.col then []
  else
    [.new_path, cairo_set_color line.col] ++ cairo_set_linetype line
    ++ [.move_to orig.x orig.y, .line_to dest.x dest.y, .stroke]

/-- Move/line sequence of the point loops (polyline and polygon).  The
first point becomes `move_to`, the rest `line_to`. -/
def cairo_poly_points : List GVertex → List CairoOp
  | [] => []
  | v :: vs => .move_to v.x v.y :: vs.map (fun w => .line_to w.x w.y)

/-- Model of `RendererCairo::visit(const Polyline*)` (lines 222-245). -/
def cairo_visit_polyline (points : List GVertex) (line : LineInfo) : List CairoOp :=
  if color.transparent line.col then []
  else
    [.new_path, cairo_set_color line.col] ++ cairo_set_linetype line
    ++ cairo_poly_points points ++ [.stroke]

/-- Model of `RendererCairo::visit(const Polygon*)` (lines 247-275). -/
def cairo_visit_polygon (points : List GVertex) (fill : color_t) (line : LineInfo) :
    List CairoOp :=
  [.new_path] ++ cairo_poly_points points ++ [.close_path]
  ++ (if !color.transparent fill then [cairo_set_color fill, .fill_preserve] else [])
  ++ (if !color.transparent line.col ∧ line.lty ≠ LTY_BLANK then
        cairo_set_linetype line ++ [cairo_set_color line.col, .stroke]
      else [])

/-- Sub-path segment loop of `RendererCairo::visit(const Path*)`
(lines 281-300), the exact analogue of `path_d_go`: `move_to` opens a
sub-path, `line_to` extends it, `close_path` closes it when its vertex
count is exhausted; dereferencing the exhausted `nper` iterator is
undefined behaviour (`none`). -/
def cairo_path_go : List ℤ → ℕ → List GVertex → Option (List CairoOp)
  | _, _, [] => some []
  | npers, 0, pt :: rest =>
    match npers with
    | [] => none
    | n :: ns =>
      (cairo_path_go ns (((n - 1).emod (2 ^ 64)).toNat) rest).map
        (fun ops => .move_to pt.x pt.y :: ops)
  | npers, left + 1, pt :: rest =>
    (cairo_path_go npers left rest).map
      (fun ops => .line_to pt.x pt.y :: (if left = 0 then [.close_path] else []) ++ ops)

/-- Model of `RendererCairo::visit(const Path*)` (lines 277-313). -/
def cairo_visit_path (points : List GVertex) (nper : List ℤ) (fill : color_t)
    (line : LineInfo) : Option (List CairoOp) :=
  (cairo_path_go nper 0 points).map (fun segs =>
    [CairoOp.new_path] ++ segs
    ++ (if !color.transparent fill then [cairo_set_color fill, .fill_preserve] else [])
    ++ (if !color.transparent line.col ∧ line.lty ≠ LTY_BLANK then
          cairo_set_linetype line ++ [cairo_set_color line.col, .stroke]
        else []))

/-- Model of `RendererCairo::visit(const Raster*)` (lines 315-366),
with the pixel conversion abstracted away from the trace (it happens
on a scratch buffer, not through the painter API). -/
def cairo_visit_raster (r : GRect) (rot : ℚ) (wh_x wh_y : ℤ) (interpolate : Bool) :
    List CairoOp :=
  [.save, .translate r.x r.y,
   .rotate (-rot * 314159265358979323846 / 100000000000000000000 / 180),
   .scale (r.width / (wh_x : ℚ)) (r.height / (wh_y : ℚ)),
   .set_source_surface]
  ++ (if interpolate then [.pattern_filter_bilinear, .pattern_extend_pad]
      else [.pattern_filter_nearest])
  ++ [.new_path, .rectangle 0 0 (wh_x : ℚ) (wh_y : ℚ), .clip, .paint, .restore]

/-- Dispatch of `dc->visit(this)` for the Cairo renderer. -/
def cairo_visit : DrawCall → Option (List CairoOp)
  | .rect _ r fill line => some (cairo_visit_rect r fill line)
  | .text _ pos rot hadj col str info => some (cairo_visit_text pos rot hadj col str info)
  | .circle _ pos radius fill line => some (cairo_visit_circle pos radius fill line)
  | .line _ orig dest line => some (cairo_visit_line orig dest line)
  | .polyline _ points line => some (cairo_visit_polyline points line)
  | .polygon _ points fill line => some (cairo_visit_polygon points fill line)
  | .path _ points nper _winding fill line => cairo_visit_path points nper fill line
  | .raster _ r rot wh_x wh_y _pixels interpolate =>
      some (cairo_visit_raster r rot wh_x wh_y interpolate)

/-- Background fill of `RendererCairo::render_page` (lines 95-101):
painted only when the page fill is not transparent. -/
def cairo_page_background (p : Page) : List CairoOp :=
  if !color.transparent p.fill then
    [.new_path, .rectangle 0 0 p.size.x p.size.y, cairo_set_color p.fill, .fill]
  else []

/-- Clip establishment for one clip rectangle (lines 104-107 and
117-122; the re-establishment also resets the previous clip). -/
def cairo_set_clip (first : Bool) (cp : Clip) : List CairoOp :=
  (if first then [] else [.reset_clip])
  ++ [.new_path, .rectangle cp.rect.x cp.rect.y cp.rect.width cp.rect.height, .clip]

/-- Draw-call loop of `RendererCairo::render_page` (lines 109-127):
when the clip id changes, the matching clip is looked up by linear
search (`std::find_if`; dereferencing the end iterator when no clip
matches is undefined behaviour, modelled as `none`). -/
def cairo_dc_loop (cps : List Clip) : ℤ → List DrawCall → Option (List CairoOp)
  | _, [] => some []
  | last_id, dc :: dcs =>
    if dc.clip_id ≠ last_id then
      match cps.find? (fun cp => cp.id == dc.clip_id) with
      | none => none
      | some next_clip =>
        (cairo_visit dc).bind (fun ops =>
          (cairo_dc_loop cps next_clip.id dcs).map (fun rest =>
            cairo_set_clip false next_clip ++ ops ++ rest))
    else
      (cairo_visit dc).bind (fun ops =>
        (cairo_dc_loop cps last_id dcs).map (fun rest => ops ++ rest))

/-- Model of `RendererCairo::render_page` (lines 93-128): background,
initial clip from `cps.front()` (undefined behaviour when the clip
list is empty, hence `none`), then the dispatch loop. -/
def cairo_render_page (p : Page) : Option (List CairoOp) :=
  match p.cps with
  | [] => none
  | c0 :: _ =>
    (cairo_dc_loop p.cps c0.id p.dcs).map (fun body =>
      cairo_page_background p ++ cairo_set_clip true c0 ++ body)

end Unigd

namespace Unigd

/-! ## Render request entry point (`unigd.cpp`, `unigd_render_`) -/

/-- Registry entry metadata relevant to `unigd_render_`: whether the
renderer produces text output.  Modelled from the spec: the registry
map itself (`renderers.cpp`) is not under `src/`, so the lookup is a
parameter. -/
structure RendererEntry where
  is_text : Bool

/-- Model of `unigd_render_` (unigd.cpp, lines 126-160).  `dev` models
`validate_unigddev` (absent device is an error); `find` models
`unigd::renderers::find`; the device's `plt_render` (declared in
`unigd_dev.h`, not under `src/`; modelled from the spec) returns the
rendered buffer for a stored page index or `none` when the page is
absent or rendering fails.  `cpp11::stop` aborts with an error and no
buffer, hence the `Except`: an error carries no partial output. -/
def unigd_render (dev : Option (ℤ → ℚ → ℚ → ℚ → Option (List ℕ)))
    (find : String → Option RendererEntry) (page : ℤ) (width height zoom : ℚ)
    (renderer_id : String) : Except String (List ℕ) :=
  match dev with
  | none => .error "Not a valid device number"
  | some plt_render =>
    let zoom1 := if width < 0 ∨ height < 0 then 1 else zoom
    match find renderer_id with
    | none => .error "Not a valid renderer ID."
    | some _ren =>
      match plt_render page (width / zoom1) (height / zoom1) zoom1 with
      | none => .error "Plot does not exist."
      | some buf => .ok buf

end Unigd

namespace Unigd

/-! ## Dash-code nibble characterization (for claims C2 and C8) -/

/-- Positional 4-bit nibble of an unsigned value: `nib u k` is the
`k`-th nibble counting from the low end. -/
def nib (u k : ℕ) : ℕ := u / 16 ^ k % 16

/-- SVG dash entry scaling: nibble times `max(lwd, 1)` (written as the
source's conditional). -/
def svg_scale (lwd : ℚ) (nb : ℕ) : ℚ := (if lwd > 1 then lwd else 1) * (nb : ℚ)

/-- Cairo dash entry scaling: nibble times the already-clamped line
width, converted from 1/96 to 1/72 inch. -/
def cairo_scale (lwd96 : ℚ) (nb : ℕ) : ℚ := (nb : ℚ) * lwd96 / 96 * 72

/-- Closed positional form of the SVG dash nibble sequence: the low
nibble unconditionally, then nibbles 1..7 up to the first zero. -/
def svg_spec_nibs (lty : ℤ) : List ℕ :=
  nib (toU32 lty) 0 ::
    ((List.range 7).map (fun j => nib (toU32 lty) (j + 1))).takeWhile (fun nb => nb != 0)

/-- Dash decoding in the exact words of claim C2: read the 32-bit code
as 4-bit nibbles starting at the low nibble, emit one entry per nibble
equal to the nibble scaled by `max(linewidth, 1)`, and stop at the
first zero nibble or after 8 entries, whichever comes first. -/
def claim_dash_decode (code : ℤ) (lwd : ℚ) : List ℚ :=
  (((List.range 8).map (nib (toU32 code))).takeWhile (fun nb => nb != 0)).map
    (fun nb => (nb : ℚ) * max lwd 1)

theorem int_ediv_ediv (a m n : ℤ) (hm : 0 < m) (hn : 0 < n) : a / m / n = a / (m * n) := by
  have h1 := Int.ediv_add_emod a m
  have h2 := Int.ediv_add_emod (a / m) n
  have hr1a := Int.emod_nonneg a (ne_of_gt hm)
  have hr1b := Int.emod_lt_of_pos a hm
  have hr2a := Int.emod_nonneg (a / m) (ne_of_gt hn)
  have hr2b := Int.emod_lt_of_pos (a / m) hn
  have key : a = m * ((a / m) % n) + a % m + (m * n) * (a / m / n) := by nlinarith [h1, h2]
  have hRnn : 0 ≤ m * ((a / m) % n) + a % m := by positivity
  have hRlt : m * ((a / m) % n) + a % m < m * n := by nlinarith
  have h3 : a / (m * n) = a / m / n := by
    conv_lhs => rw [key]
    rw [Int.add_mul_ediv_left _ _ (by positivity : (m * n) ≠ 0),
      Int.ediv_eq_zero_of_lt hRnn hRlt, zero_add]
  exact h3.symm

theorem inib_eq_nib (lty : ℤ) (k : ℕ) (hk : k ≤ 7) :
    (lty / 16 ^ k) % 16 = ((nib (toU32 lty) k : ℕ) : ℤ) := by
  have hu0 : (0:ℤ) ≤ lty % 4294967296 := Int.emod_nonneg _ (by norm_num)
  have h2 : (16:ℤ) ^ k * (16 * 16 ^ (7 - k)) = 4294967296 := by
    rw [← pow_succ', ← pow_add, show k + (7 - k + 1) = 8 by omega]
    norm_num
  have hdecomp :
      lty = 16 ^ k * (16 * (16 ^ (7 - k) * (lty / 4294967296))) + lty % 4294967296 := by
    calc lty = 4294967296 * (lty / 4294967296) + lty % 4294967296 :=
        (Int.ediv_add_emod lty _).symm
      _ = _ := by rw [← h2]; ring
  conv_lhs => rw [hdecomp]
  rw [mul_comm ((16:ℤ) ^ k) _, add_comm,
    Int.add_mul_ediv_right _ _ (by positivity : (16:ℤ) ^ k ≠ 0),
    Int.add_mul_emod_self_left]
  have h3 : ((toU32 lty : ℕ) : ℤ) = lty % 4294967296 := Int.toNat_of_nonneg hu0
  unfold nib
  push_cast
  rw [h3]

theorem fdiv_pow_emod (lty : ℤ) (k : ℕ) (hk : k ≤ 7) :
    (lty.fdiv (16 ^ k)).emod 16 = ((nib (toU32 lty) k : ℕ) : ℤ) := by
  rw [Int.fdiv_eq_ediv _ (by positivity)]
  exact inib_eq_nib lty k hk

theorem shr4_fdiv_pow (lty : ℤ) (j : ℕ) :
    shr4 (lty.fdiv (16 ^ j)) = lty.fdiv (16 ^ (j + 1)) := by
  rw [shr4, Int.fdiv_eq_ediv _ (by positivity), Int.fdiv_eq_ediv _ (by positivity),
    Int.fdiv_eq_ediv _ (by positivity),
    int_ediv_ediv _ _ _ (by positivity) (by norm_num), ← pow_succ]

theorem svg_dash_rest_eq (lwd : ℚ) (k : ℕ) :
    ∀ (j : ℕ) (lty : ℤ), j + k ≤ 7 →
    svg_dash_rest lwd (lty.fdiv (16 ^ (j + 1))) k
      = (((List.range k).map (fun i => nib (toU32 lty) (j + 1 + i))).takeWhile
          (fun nb => nb != 0)).map (svg_scale lwd) := by
  induction k with
  | zero => intro j lty _; simp [svg_dash_rest]
  | succ k ih =>
    intro j lty h
    have hj1 : j + 1 ≤ 7 := by omega
    have hnib := fdiv_pow_emod lty (j + 1) hj1
    have hmap : (List.map Nat.succ (List.range k)).map (fun i => nib (toU32 lty) (j + 1 + i))
        = (List.range k).map (fun i => nib (toU32 lty) (j + 1 + 1 + i)) := by
      rw [List.map_map]
      apply List.map_congr_left
      intro a _
      simp only [Function.comp_apply]
      congr 1
      omega
    rw [List.range_succ_eq_map, List.map_cons, hmap]
    by_cases hz : nib (toU32 lty) (j + 1) = 0
    · rw [svg_dash_rest, if_neg (by rw [hnib, hz]; simp),
        List.takeWhile_cons_of_neg (by simp [hz]), List.map_nil]
    · rw [svg_dash_rest, if_pos (by rw [hnib]; exact_mod_cast hz),
        List.takeWhile_cons_of_pos (by simpa using hz), List.map_cons,
        shr4_fdiv_pow lty (j + 1), ih (j + 1) lty (by omega)]
      congr 1
      · rw [scale_lty, svg_scale, hnib]
        norm_num

theorem svg_dash_values_eq (lty : ℤ) (lwd : ℚ) (h1 : lty ≠ LTY_BLANK)
    (h2 : lty ≠ LTY_SOLID) :
    svg_dash_values lty lwd = (svg_spec_nibs lty).map (svg_scale lwd) := by
  rw [svg_dash_values, if_neg (by tauto), svg_spec_nibs, List.map_cons]
  congr 1
  · have h0 := fdiv_pow_emod lty 0 (by norm_num)
    rw [pow_zero, Int.fdiv_one] at h0
    rw [scale_lty, svg_scale, h0]
    push_cast
    ring
  · have hsh : shr4 lty = lty.fdiv (16 ^ (0 + 1)) := by rw [shr4]; norm_num
    rw [hsh, svg_dash_rest_eq lwd 7 0 lty (by norm_num)]
    simp only [zero_add, Nat.add_comm 1]

end Unigd

namespace Unigd

theorem nib_zero (i : ℕ) : nib 0 i = 0 := by simp [nib]

theorem nib_succ (dt i : ℕ) : nib dt (i + 1) = nib (dt / 16) i := by
  rw [nib, nib, Nat.div_div_eq_div_mul, ← pow_succ']

theorem nib_head (dt : ℕ) : nib dt 0 = dt % 16 := by simp [nib]

theorem cairo_go_getD (l : ℚ) :
    ∀ (fuel dt : ℕ), dt < 16 ^ fuel → ∀ i,
      (cairo_dash_go l fuel dt).getD i 0 = cairo_scale l (nib dt i)
  | 0, dt, h, i => by
    interval_cases dt
    simp [cairo_dash_go, cairo_scale, nib_zero]
  | fuel + 1, 0, _, i => by simp [cairo_dash_go, cairo_scale, nib_zero]
  | fuel + 1, dt + 1, h, 0 => by
    simp [cairo_dash_go, cairo_scale, nib_head]
  | fuel + 1, dt + 1, h, i + 1 => by
    have hlt : (dt + 1) / 16 < 16 ^ fuel := by
      rw [Nat.div_lt_iff_lt_mul (by norm_num)]
      calc dt + 1 < 16 ^ (fuel + 1) := h
        _ = 16 ^ fuel * 16 := by rw [pow_succ]
    rw [show cairo_dash_go l (fuel + 1) (dt + 1)
        = ((dt + 1) % 16 : ℕ) * l / 96 * 72 :: cairo_dash_go l fuel ((dt + 1) / 16) from rfl]
    rw [List.getD_cons_succ, nib_succ]
    exact cairo_go_getD l fuel ((dt + 1) / 16) hlt i

theorem cairo_go_length (l : ℚ) :
    ∀ (fuel dt : ℕ), (cairo_dash_go l fuel dt).length ≤ fuel
  | 0, _ => by simp [cairo_dash_go]
  | fuel + 1, 0 => by simp [cairo_dash_go]
  | fuel + 1, dt + 1 => by
    rw [show cairo_dash_go l (fuel + 1) (dt + 1)
        = ((dt + 1) % 16 : ℕ) * l / 96 * 72 :: cairo_dash_go l fuel ((dt + 1) / 16) from rfl]
    simpa using cairo_go_length l fuel ((dt + 1) / 16)

theorem cairo_go_tail_zero (l : ℚ) :
    ∀ (fuel dt : ℕ), dt < 16 ^ fuel → ∀ i,
      (cairo_dash_go l fuel dt).length ≤ i → nib dt i = 0
  | 0, dt, h, i, _ => by interval_cases dt; exact nib_zero i
  | fuel + 1, 0, _, i, _ => nib_zero i
  | fuel + 1, dt + 1, h, 0, hi => by
    rw [show cairo_dash_go l (fuel + 1) (dt + 1)
        = ((dt + 1) % 16 : ℕ) * l / 96 * 72 :: cairo_dash_go l fuel ((dt + 1) / 16) from rfl]
      at hi
    simp at hi
  | fuel + 1, dt + 1, h, i + 1, hi => by
    have hlt : (dt + 1) / 16 < 16 ^ fuel := by
      rw [Nat.div_lt_iff_lt_mul (by norm_num)]
      calc dt + 1 < 16 ^ (fuel + 1) := h
        _ = 16 ^ fuel * 16 := by rw [pow_succ]
    rw [show cairo_dash_go l (fuel + 1) (dt + 1)
        = ((dt + 1) % 16 : ℕ) * l / 96 * 72 :: cairo_dash_go l fuel ((dt + 1) / 16) from rfl]
      at hi
    rw [nib_succ]
    exact cairo_go_tail_zero l fuel ((dt + 1) / 16) hlt i (by simpa using hi)

theorem cairo_go_last (l : ℚ) :
    ∀ (fuel dt : ℕ), dt < 16 ^ fuel → cairo_dash_go l fuel dt ≠ [] →
      nib dt ((cairo_dash_go l fuel dt).length - 1) ≠ 0
  | 0, dt, _, hne => by simp [cairo_dash_go] at hne
  | fuel + 1, 0, _, hne => by simp [cairo_dash_go] at hne
  | fuel + 1, dt + 1, h, _ => by
    have hlt : (dt + 1) / 16 < 16 ^ fuel := by
      rw [Nat.div_lt_iff_lt_mul (by norm_num)]
      calc dt + 1 < 16 ^ (fuel + 1) := h
        _ = 16 ^ fuel * 16 := by rw [pow_succ]
    rw [show cairo_dash_go l (fuel + 1) (dt + 1)
        = ((dt + 1) % 16 : ℕ) * l / 96 * 72 :: cairo_dash_go l fuel ((dt + 1) / 16) from rfl]
    by_cases hrest : cairo_dash_go l fuel ((dt + 1) / 16) = []
    · rw [hrest]
      simp only [List.length_cons, List.length_nil]
      rw [nib_head]
      have hdt16 : dt + 1 < 16 := by
        rcases fuel with _ | fuel
        · simpa using h
        · by_contra hge
          push_neg at hge
          have hne0 : (dt + 1) / 16 ≠ 0 := by
            intro h0
            have := (Nat.div_eq_zero_iff (by norm_num : 0 < 16)).1 h0
            omega
          rcases Nat.exists_eq_add_of_lt (Nat.pos_of_ne_zero hne0) with ⟨m, hm⟩
          rw [show cairo_dash_go l (fuel + 1) ((dt + 1) / 16)
              = (((dt + 1) / 16) % 16 : ℕ) * l / 96 * 72
                :: cairo_dash_go l fuel ((dt + 1) / 16 / 16) from by
              rw [hm]; rfl] at hrest
          simp at hrest
      omega
    · have ih := cairo_go_last l fuel ((dt + 1) / 16) hlt hrest
      have hlen : 1 ≤ (cairo_dash_go l fuel ((dt + 1) / 16)).length :=
        Nat.one_le_iff_ne_zero.mpr (by simpa using hrest)
      simp only [List.length_cons]
      rw [show (cairo_dash_go l fuel ((dt + 1) / 16)).length + 1 - 1
          = ((cairo_dash_go l fuel ((dt + 1) / 16)).length - 1) + 1 by omega]
      rw [nib_succ]
      exact ih

theorem cairo_go_fuel_mono (l : ℚ) :
    ∀ (fuel fuel' dt : ℕ), dt < 16 ^ fuel → fuel ≤ fuel' →
      cairo_dash_go l fuel dt = cairo_dash_go l fuel' dt
  | 0, fuel', dt, h, _ => by
    interval_cases dt
    rcases fuel' with _ | fuel' <;> simp [cairo_dash_go]
  | fuel + 1, fuel', 0, _, hle => by
    rcases fuel' with _ | fuel' <;> simp [cairo_dash_go]
  | fuel + 1, fuel', dt + 1, h, hle => by
    have hlt : (dt + 1) / 16 < 16 ^ fuel := by
      rw [Nat.div_lt_iff_lt_mul (by norm_num)]
      calc dt + 1 < 16 ^ (fuel + 1) := h
        _ = 16 ^ fuel * 16 := by rw [pow_succ]
    rcases fuel' with _ | fuel'
    · omega
    rw [show cairo_dash_go l (fuel + 1) (dt + 1)
        = ((dt + 1) % 16 : ℕ) * l / 96 * 72 :: cairo_dash_go l fuel ((dt + 1) / 16) from rfl,
      show cairo_dash_go l (fuel' + 1) (dt + 1)
        = ((dt + 1) % 16 : ℕ) * l / 96 * 72 :: cairo_dash_go l fuel' ((dt + 1) / 16) from rfl]
    rw [cairo_go_fuel_mono l fuel fuel' ((dt + 1) / 16) hlt (by omega)]

theorem toU32_lt (i : ℤ) : toU32 i < 16 ^ 8 := by
  have h1 : i.emod 4294967296 < 4294967296 :=
    Int.emod_lt_of_pos i (by norm_num)
  have h2 : (0:ℤ) ≤ i.emod 4294967296 := Int.emod_nonneg i (by norm_num)
  rw [toU32]
  omega

theorem svg_dash_rest_length (lwd : ℚ) :
    ∀ (k : ℕ) (lty : ℤ), (svg_dash_rest lwd lty k).length ≤ k
  | 0, _ => by simp [svg_dash_rest]
  | k + 1, lty => by
    rw [svg_dash_rest]
    split
    · simpa using svg_dash_rest_length lwd k (shr4 lty)
    · simp

end Unigd

namespace Unigd

theorem if_gt_eq_max (lwd : ℚ) : (if lwd > 1 then lwd else 1) = max lwd 1 := by
  rcases le_or_lt lwd 1 with h | h
  · rw [if_neg (not_lt.2 h), max_eq_right h]
  · rw [if_pos h, max_eq_left h.le]

/-- Claim C2 (corrected), counterexample: at dash code `0x103 = 259`
and line width 1 the claimed decoding stops at the zero middle nibble
and yields the single entry `[3]`, but the Cairo backend emits three
entries `[9/4, 0, 3/4]` — one per nibble through the most significant
nonzero nibble, the interior zero nibble included — which is not the
claimed list in any length unit. -/
theorem C2_counterexample :
    claim_dash_decode 259 1 = [3]
    ∧ cairo_dash_values 259 1 = [9/4, 0, 3/4]
    ∧ cairo_dash_values 259 1 ≠ (claim_dash_decode 259 1).map (fun q => q / 96 * 72)
    ∧ (cairo_dash_values 259 1).length ≠ (claim_dash_decode 259 1).length := by
  refine ⟨?_, ?_, ?_, ?_⟩ <;> with_unfolding_all decide

/-- Claim C2 (amended): for every dash code that is neither solid nor
blank and every line width, the SVG backends emit the low nibble
unconditionally and then one entry per nibble, stopping at the first
zero nibble or after 8 entries, each entry the nibble scaled by
`max(linewidth, 1)` in unconverted 1/96-inch units, while the Cairo
backend emits one entry per nibble of the 32-bit value through its
most significant nonzero nibble — interior zero nibbles included, at
most 8 entries — each entry the nibble scaled by `max(linewidth, 1)`
and converted by 72/96 to 1/72-inch units. -/
theorem C2_dash_decoding (lty : ℤ) (lwd : ℚ) (h1 : lty ≠ LTY_BLANK)
    (h2 : lty ≠ LTY_SOLID) :
    svg_dash_values lty lwd = (svg_spec_nibs lty).map (svg_scale lwd)
    ∧ (∀ i, (cairo_dash_values lty lwd).getD i 0
        = cairo_scale (if lwd > 1 then lwd else 1) (nib (toU32 lty) i))
    ∧ (∀ i, (cairo_dash_values lty lwd).length ≤ i → nib (toU32 lty) i = 0)
    ∧ (cairo_dash_values lty lwd ≠ [] →
        nib (toU32 lty) ((cairo_dash_values lty lwd).length - 1) ≠ 0)
    ∧ (∀ nb : ℕ, svg_scale lwd nb = (nb : ℚ) * max lwd 1
        ∧ cairo_scale (if lwd > 1 then lwd else 1) nb = (nb : ℚ) * max lwd 1 / 96 * 72) := by
  have hval : cairo_dash_values lty lwd
      = cairo_dash_go (if lwd > 1 then lwd else 1) 8 (toU32 lty) := by
    rw [cairo_dash_values, if_neg (by tauto)]
    rfl
  refine ⟨svg_dash_values_eq lty lwd h1 h2, ?_, ?_, ?_, ?_⟩
  · intro i
    rw [hval]
    exact cairo_go_getD _ 8 (toU32 lty) (toU32_lt lty) i
  · intro i hi
    rw [hval] at hi
    exact cairo_go_tail_zero _ 8 (toU32 lty) (toU32_lt lty) i hi
  · intro hne
    rw [hval] at hne ⊢
    exact cairo_go_last _ 8 (toU32 lty) (toU32_lt lty) hne
  · intro nb
    constructor
    · rw [svg_scale, if_gt_eq_max, mul_comm]
    · rw [cairo_scale, if_gt_eq_max]

/-- Witness for C2: the amended characterization evaluated at dash
code `0x103` and line width 1. -/
theorem C2_witness :
    svg_dash_values 259 1 = (svg_spec_nibs 259).map (svg_scale 1)
    ∧ (cairo_dash_values 259 1).getD 1 0 = cairo_scale 1 (nib (toU32 259) 1) := by
  have h := C2_dash_decoding 259 1 (by decide) (by decide)
  refine ⟨h.1, ?_⟩
  have h2 := h.2.1 1
  simpa using h2

/-- Claim C8 (confirmed): dash decoding is total (all decoders are
total functions of the code; the Cairo loop is exhausted within its 8
units of fuel for every 32-bit value, as the third conjunct states)
and never yields more than 8 entries in either backend family. -/
theorem C8_dash_termination (lty : ℤ) (lwd : ℚ) :
    (svg_dash_values lty lwd).length ≤ 8
    ∧ (cairo_dash_values lty lwd).length ≤ 8
    ∧ (∀ fuel, 8 ≤ fuel →
        cairo_dash_go (if lwd > 1 then lwd else 1) fuel (toU32 lty)
          = cairo_dash_loop (if lwd > 1 then lwd else 1) (toU32 lty)) := by
  refine ⟨?_, ?_, ?_⟩
  · rw [svg_dash_values]
    split
    · simp
    · simpa using svg_dash_rest_length lwd 7 (shr4 lty)
  · rw [cairo_dash_values]
    split
    · simp
    · exact cairo_go_length _ 8 (toU32 lty)
  · intro fuel hf
    rw [cairo_dash_loop]
    exact (cairo_go_fuel_mono _ 8 fuel (toU32 lty) (toU32_lt lty) hf).symm

/-- Witness for C8: the bounds evaluated at dash code `0x103` and line
width 1 (and the fuel independence at fuel 9). -/
theorem C8_witness :
    (svg_dash_values 259 1).length ≤ 8
    ∧ (cairo_dash_values 259 1).length ≤ 8
    ∧ cairo_dash_go 1 9 (toU32 259) = cairo_dash_loop 1 (toU32 259) := by
  have h := C8_dash_termination 259 1
  refine ⟨h.1, h.2.1, ?_⟩
  have h3 := h.2.2 9 (by norm_num)
  simpa using h3

end Unigd

namespace Unigd

/-- Claim C5 (confirmed): in `unigd_render_`, a negative target width
or height forces the zoom factor to 1 before rendering; an unknown
renderer id or an absent page index aborts with an error, and the
`Except` result shows that an error carries no output buffer. -/
theorem C5_render_request (pr : ℤ → ℚ → ℚ → ℚ → Option (List ℕ))
    (reg : String → Option RendererEntry) (page : ℤ) (width height zoom : ℚ)
    (rid : String) :
    (width < 0 ∨ height < 0 →
      unigd_render (some pr) reg page width height zoom rid
        = unigd_render (some pr) reg page width height 1 rid)
    ∧ (reg rid = none →
      unigd_render (some pr) reg page width height zoom rid
        = .error "Not a valid renderer ID.")
    ∧ (∀ zoom1, zoom1 = (if width < 0 ∨ height < 0 then 1 else zoom) →
        pr page (width / zoom1) (height / zoom1) zoom1 = none →
        ∀ e, reg rid = some e →
        unigd_render (some pr) reg page width height zoom rid
          = .error "Plot does not exist.") := by
  refine ⟨?_, ?_, ?_⟩
  · intro h
    simp only [unigd_render, if_pos h]
  · intro h
    simp only [unigd_render, h]
  · intro zoom1 hz hpr e he
    simp only [unigd_render, he, ← hz, hpr]

/-- Witness for C5: concrete device whose page store is empty and a
registry with no renderers; width `-1` forces zoom 1, the unknown id
errors, and the absent page errors. -/
theorem C5_witness :
    (unigd_render (some (fun _ _ _ _ => none)) (fun _ => none) 0 (-1) 2 5 "svg"
      = unigd_render (some (fun _ _ _ _ => none)) (fun _ => none) 0 (-1) 2 1 "svg")
    ∧ (unigd_render (some (fun _ _ _ _ => none)) (fun _ => none) 0 (-1) 2 5 "svg"
      = .error "Not a valid renderer ID.")
    ∧ (unigd_render (some (fun _ _ _ _ => none)) (fun _ => some ⟨true⟩) 0 3 2 1 "png"
      = .error "Plot does not exist.") := by
  refine ⟨?_, ?_, ?_⟩
  · exact (C5_render_request (fun _ _ _ _ => none) (fun _ => none) 0 (-1) 2 5 "svg").1
      (Or.inl (by norm_num))
  · exact (C5_render_request (fun _ _ _ _ => none) (fun _ => none) 0 (-1) 2 5 "svg").2.1 rfl
  · exact (C5_render_request (fun _ _ _ _ => none) (fun _ => some ⟨true⟩) 0 3 2 1
      "png").2.2 1 (by norm_num) rfl ⟨true⟩ rfl

end Unigd

namespace Unigd

/-- Close-path test for counting closed sub-paths in a Cairo trace. -/
def cairo_is_close : CairoOp → Bool
  | .close_path => true
  | _ => false

/-- Claim C7 (confirmed): a Path with `nper = [4, 3]` and seven points
renders as exactly two explicitly closed sub-paths in every backend
that draws path geometry — the shared SVG path-data loop (used by both
the style-sheet and the portable renderer) emits `M`,`L`,`L`,`L`,`Z`
for the first four points and `M`,`L`,`L`,`Z` for the remaining three,
and the Cairo visitor issues the corresponding `move_to`/`line_to`/
`close_path` trace with exactly two `close_path` operations. -/
theorem C7_path_subpaths (a b c d e f g : GVertex) (fill : color_t) (line : LineInfo) :
    path_d [4, 3] [a, b, c, d, e, f, g]
      = some ("M" ++ fmt2 a.x ++ " " ++ fmt2 a.y
        ++ ("L" ++ fmt2 b.x ++ " " ++ fmt2 b.y)
        ++ ("L" ++ fmt2 c.x ++ " " ++ fmt2 c.y)
        ++ ("L" ++ fmt2 d.x ++ " " ++ fmt2 d.y ++ "Z")
        ++ ("M" ++ fmt2 e.x ++ " " ++ fmt2 e.y)
        ++ ("L" ++ fmt2 f.x ++ " " ++ fmt2 f.y)
        ++ ("L" ++ fmt2 g.x ++ " " ++ fmt2 g.y ++ "Z"))
    ∧ cairo_path_go [4, 3] 0 [a, b, c, d, e, f, g]
      = some [.move_to a.x a.y, .line_to b.x b.y, .line_to c.x c.y, .line_to d.x d.y,
          .close_path, .move_to e.x e.y, .line_to f.x f.y, .line_to g.x g.y,
          .close_path]
    ∧ (cairo_visit_path [a, b, c, d, e, f, g] [4, 3] fill line).map
        (List.countP cairo_is_close) = some 2 := by
  have h3 : (((4:ℤ) - 1).emod (2 ^ 64)).toNat = 3 := by decide
  have h2 : (((3:ℤ) - 1).emod (2 ^ 64)).toNat = 2 := by decide
  have hgo : cairo_path_go [4, 3] 0 [a, b, c, d, e, f, g]
      = some [.move_to a.x a.y, .line_to b.x b.y, .line_to c.x c.y, .line_to d.x d.y,
          .close_path, .move_to e.x e.y, .line_to f.x f.y, .line_to g.x g.y,
          .close_path] := by
    simp [cairo_path_go, h3, h2]
  refine ⟨?_, hgo, ?_⟩
  · simp [path_d, path_d_go, h3, h2, String.append_assoc]
  · rw [cairo_visit_path, hgo]
    simp only [Option.map_some']
    congr 1
    rw [List.countP_append, List.countP_append]
    have hcol : ∀ c : color_t, cairo_is_close (cairo_set_color c) = false := by
      intro c
      rw [cairo_set_color]
      split <;> rfl
    have hfill : (if !color.transparent fill
        then [cairo_set_color fill, CairoOp.fill_preserve] else []).countP cairo_is_close
        = 0 := by
      split
      · simp only [List.countP_cons, List.countP_nil, hcol]
        simp [cairo_is_close]
      · simp
    have hstroke : (if !color.transparent line.col ∧ line.lty ≠ LTY_BLANK
        then cairo_set_linetype line ++ [cairo_set_color line.col, CairoOp.stroke]
        else []).countP cairo_is_close = 0 := by
      split
      · simp only [List.countP_append, List.countP_cons, List.countP_nil,
          cairo_set_linetype, hcol]
        simp [cairo_is_close]
      · simp
    rw [hfill, hstroke]
    simp [cairo_is_close, List.countP_cons]

end Unigd

namespace Unigd

/-! ## Two-decimal and truncation recovery bounds (claim C3) -/

/-- Rational value denoted by the two-decimal emission `fmt2 q`. -/
def val2 (q : ℚ) : ℚ := ((rnd (q * 100) : ℤ) : ℚ) / 100

theorem abs_val2_sub (q : ℚ) : |val2 q - q| ≤ 1 / 200 := by
  rw [val2]
  calc |((rnd (q * 100) : ℤ) : ℚ) / 100 - q|
      = |((rnd (q * 100) : ℤ) : ℚ) - q * 100| / 100 := by
        rw [← abs_of_pos (show (0:ℚ) < 100 by norm_num), ← abs_div]
        congr 1
        field_simp
        ring
    _ ≤ (1 / 2) / 100 := by gcongr; exact abs_rnd_sub (q * 100)
    _ = 1 / 200 := by norm_num

theorem val2_mul_100 (q : ℚ) : val2 q * 100 = ((rnd (q * 100) : ℤ) : ℚ) := by
  rw [val2]
  field_simp

/-- Emitting the denoted value again yields the same two-decimal
string: `fmt2` factors through `val2`. -/
theorem fmt2_val2 (q : ℚ) : fmt2 (val2 q) = fmt2 q := by
  rw [fmt2, fmt2, val2_mul_100, rnd_eq_round, round_intCast]

theorem neg_tmod' (a b : ℤ) : (-a).tmod b = -(a.tmod b) := by
  rw [Int.tmod_def, Int.tmod_def, Int.neg_tdiv]
  ring

theorem abs_tmod_lt (a : ℤ) {b : ℤ} (hb : 0 < b) : |a.tmod b| < b := by
  rcases le_or_lt 0 a with ha | ha
  · rw [abs_of_nonneg (Int.tmod_nonneg b ha)]
    exact Int.tmod_lt_of_pos a hb
  · have h1 : a.tmod b = -((-a).tmod b) := by rw [neg_tmod']; ring
    have h2 : 0 ≤ (-a).tmod b := Int.tmod_nonneg b (by omega)
    have h3 : (-a).tmod b < b := Int.tmod_lt_of_pos (-a) hb
    rw [h1, abs_neg, abs_of_nonneg h2]
    exact h3

/-- The C++ float-to-int truncation loses strictly less than one
unit. -/
theorem abs_cppIntCast_sub (q : ℚ) : |(cppIntCast q : ℚ) - q| < 1 := by
  have hdpos : (0:ℤ) < (q.den : ℤ) := by exact_mod_cast q.pos
  have hden : ((q.den : ℚ)) ≠ 0 := by exact_mod_cast q.den_nz
  have hkey := Int.tdiv_add_tmod q.num (q.den : ℤ)
  have habs := abs_tmod_lt q.num hdpos
  have hqd : (q.num : ℚ) = q * (q.den : ℚ) := (div_eq_iff hden).1 (Rat.num_div_den q)
  have hcast : ((q.den : ℤ) : ℚ) * ((q.num.tdiv (q.den : ℤ) : ℤ) : ℚ)
      + ((q.num.tmod (q.den : ℤ) : ℤ) : ℚ) = (q.num : ℚ) := by
    exact_mod_cast congrArg (fun z : ℤ => (z : ℚ)) hkey
  have hdiff : ((q.num.tdiv (q.den : ℤ) : ℤ) : ℚ) - q
      = -((q.num.tmod (q.den : ℤ) : ℤ) : ℚ) / (q.den : ℚ) := by
    rw [eq_div_iff hden]
    push_cast at hcast ⊢
    linear_combination hcast + hqd
  rw [cppIntCast]
  rw [show ((q.den : ℕ) : ℤ) = (q.den : ℤ) from rfl] at *
  rw [hdiff, abs_div, abs_neg]
  rw [abs_of_nonneg (by positivity : (0:ℚ) ≤ (q.den : ℚ))]
  rw [div_lt_one (by positivity)]
  exact_mod_cast habs

/-- Truncating an integer value is the identity. -/
theorem cppIntCast_intCast (t : ℤ) : cppIntCast ((t : ℤ) : ℚ) = t := by
  rw [cppIntCast]
  simp [Rat.num_intCast, Rat.den_intCast, Int.tdiv_one]

theorem red_rgba (r g b a : ℕ) (hr : r < 256) :
    color.red (color.rgba r g b a) = r := by
  unfold color.red color.rgba
  omega

theorem green_rgba (r g b a : ℕ) (hr : r < 256) (hg : g < 256) :
    color.green (color.rgba r g b a) = g := by
  unfold color.green color.rgba
  omega

theorem blue_rgba (r g b a : ℕ) (hr : r < 256) (hg : g < 256) (hb : b < 256) :
    color.blue (color.rgba r g b a) = b := by
  unfold color.blue color.rgba
  omega

theorem red_lt (c : color_t) : color.red c < 256 := Nat.mod_lt _ (by norm_num)

theorem green_lt (c : color_t) : color.green c < 256 := Nat.mod_lt _ (by norm_num)

theorem blue_lt (c : color_t) : color.blue c < 256 := Nat.mod_lt _ (by norm_num)

/-- Canonical representative of a `LineInfo` under the JSON emission:
the values that the emitted record actually determines. -/
def canonLineInfo (l : LineInfo) : LineInfo where
  col := color.rgba (color.red l.col) (color.green l.col) (color.blue l.col) 255
  lwd := val2 l.lwd
  lty := l.lty
  lend := l.lend
  ljoin := l.ljoin
  lmitre := ((cppIntCast l.lmitre : ℤ) : ℚ)

end Unigd

namespace Unigd

/-- The JSON line record depends only on the canonical representative:
the emission cannot distinguish a `LineInfo` from its canonicalized
form. -/
theorem json_lineinfo_canon (l : LineInfo) :
    json_lineinfo (canonLineInfo l) = json_lineinfo l := by
  simp only [json_lineinfo, canonLineInfo, hexcol]
  rw [red_rgba _ _ _ _ (red_lt l.col), green_rgba _ _ _ _ (red_lt l.col) (green_lt l.col),
    blue_rgba _ _ _ _ (red_lt l.col) (green_lt l.col) (blue_lt l.col),
    fmt2_val2, cppIntCast_intCast]

set_option maxRecDepth 4000 in
/-- Claim C3 (corrected), counterexample: two pages that differ only
in a miter limit (10 versus 10.5, a difference far beyond 2-decimal
precision) serialize to byte-identical structured JSON, because
`json_lineinfo` emits `lmitre` through `static_cast<int>`; no reader
of the emitted record can recover `lmitre` to 2-decimal precision. -/
theorem C3_counterexample :
    json_render
      { id := 1, size := ⟨10, 10⟩, fill := color.rgba 255 255 255 255,
        cps := [⟨0, ⟨0, 0, 10, 10⟩⟩],
        dcs := [.circle 0 ⟨5, 5⟩ 2 (color.rgba 0 0 0 0)
          ⟨color.rgba 0 0 0 255, 1, 0, 1, 1, 10⟩] } 1
    = json_render
      { id := 1, size := ⟨10, 10⟩, fill := color.rgba 255 255 255 255,
        cps := [⟨0, ⟨0, 0, 10, 10⟩⟩],
        dcs := [.circle 0 ⟨5, 5⟩ 2 (color.rgba 0 0 0 0)
          ⟨color.rgba 0 0 0 255, 1, 0, 1, 1, Rat.divInt 21 2⟩] } 1
    ∧ (10 : ℚ) ≠ Rat.divInt 21 2
    ∧ |(Rat.divInt 21 2 : ℚ) - 10| > 1 / 100 := by
  refine ⟨?_, ?_, ?_⟩ <;> with_unfolding_all decide

/-- Claim C3 (amended): the structured JSON backend emits every
2-decimal-formatted numeric field as `fmt2`, whose denoted value
`val2` is within 1/200 of the original, and the emission is a function
of the canonicalized record only; the `lmitre` field however is
emitted as a `static_cast<int>` truncation and is recoverable only to
integer precision (error strictly below 1), not 2-decimal precision;
the integer fields `lty`, `lend`, `ljoin` and the RGB channels of the
6-hex-digit color string are recovered exactly. -/
theorem C3_json_precision (l : LineInfo) (q : ℚ) :
    json_lineinfo l = json_lineinfo (canonLineInfo l)
    ∧ (canonLineInfo l).lwd = val2 l.lwd
    ∧ |(canonLineInfo l).lwd - l.lwd| ≤ 1 / 200
    ∧ (canonLineInfo l).lmitre = ((cppIntCast l.lmitre : ℤ) : ℚ)
    ∧ |(canonLineInfo l).lmitre - l.lmitre| < 1
    ∧ color.red (canonLineInfo l).col = color.red l.col
    ∧ color.green (canonLineInfo l).col = color.green l.col
    ∧ color.blue (canonLineInfo l).col = color.blue l.col
    ∧ (canonLineInfo l).lty = l.lty
    ∧ (canonLineInfo l).lend = l.lend
    ∧ (canonLineInfo l).ljoin = l.ljoin
    ∧ |val2 q - q| ≤ 1 / 200
    ∧ fmt2 (val2 q) = fmt2 q := by
  refine ⟨(json_lineinfo_canon l).symm, rfl, abs_val2_sub l.lwd, rfl,
    abs_cppIntCast_sub l.lmitre, ?_, ?_, ?_, rfl, rfl, rfl, abs_val2_sub q, fmt2_val2 q⟩
  · exact red_rgba _ _ _ _ (red_lt l.col)
  · exact green_rgba _ _ _ _ (red_lt l.col) (green_lt l.col)
  · exact blue_rgba _ _ _ _ (red_lt l.col) (green_lt l.col) (blue_lt l.col)

end Unigd

namespace Unigd

/-- Substring test on strings (via list infix). -/
def containsStr (s pat : String) : Bool := decide (pat.data <:+: s.data)

/-- Fill-operation test in a Cairo trace (`cairo_fill` and
`cairo_fill_preserve`). -/
def cairo_is_fill : CairoOp → Bool
  | .fill => true
  | .fill_preserve => true
  | _ => false

theorem cairo_set_color_not_fill (c : color_t) : cairo_is_fill (cairo_set_color c) = false := by
  rw [cairo_set_color]
  split <;> rfl

theorem cairo_set_linetype_no_fill (lineI : LineInfo) :
    (cairo_set_linetype lineI).countP cairo_is_fill = 0 := by
  simp [cairo_set_linetype, List.countP_cons, cairo_is_fill]

theorem cairo_stroke_branch_no_fill (col : color_t) (lineI : LineInfo) :
    (if !color.transparent col ∧ lineI.lty ≠ LTY_BLANK then
      cairo_set_linetype lineI ++ [cairo_set_color col, CairoOp.stroke]
    else []).countP cairo_is_fill = 0 := by
  split
  · simp only [List.countP_append, List.countP_cons, List.countP_nil,
      cairo_set_color_not_fill, cairo_set_linetype_no_fill]
    simp [cairo_is_fill]
  · simp

theorem cairo_poly_points_no_fill (pts : List GVertex) :
    (cairo_poly_points pts).countP cairo_is_fill = 0 := by
  rw [List.countP_eq_zero]
  intro op hop
  rcases pts with _ | ⟨v, vs⟩
  · simp [cairo_poly_points] at hop
  · simp only [cairo_poly_points, List.mem_cons, List.mem_map] at hop
    rcases hop with h | ⟨w, _, h⟩
    · rw [h]
      simp [cairo_is_fill]
    · rw [← h]
      simp [cairo_is_fill]

theorem cairo_path_go_no_fill :
    ∀ (npers : List ℤ) (left : ℕ) (pts : List GVertex) (ops : List CairoOp),
      cairo_path_go npers left pts = some ops → ops.countP cairo_is_fill = 0
  | _, _, [], ops, h => by
    simp only [cairo_path_go] at h
    cases h
    rfl
  | npers, 0, pt :: rest, ops, h => by
    rcases npers with _ | ⟨n, ns⟩
    · simp only [cairo_path_go] at h
      cases h
    · simp only [cairo_path_go] at h
      rcases hgo : cairo_path_go ns (((n - 1).emod (2 ^ 64)).toNat) rest with _ | ops'
      · rw [hgo] at h
        cases h
      · rw [hgo] at h
        rw [Option.map_some'] at h
        cases h
        have ih := cairo_path_go_no_fill ns (((n - 1).emod (2 ^ 64)).toNat) rest ops' hgo
        simpa [List.countP_cons, cairo_is_fill] using ih
  | npers, left + 1, pt :: rest, ops, h => by
    simp only [cairo_path_go] at h
    rcases hgo : cairo_path_go npers left rest with _ | ops'
    · rw [hgo] at h
      cases h
    · rw [hgo] at h
      rw [Option.map_some'] at h
      cases h
      have ih := cairo_path_go_no_fill npers left rest ops' hgo
      rcases left with _ | left <;>
        simpa [List.countP_cons, List.countP_append, cairo_is_fill] using ih

theorem json_circle_fill_attr (clip : ℤ) (pos : GVertex) (radius : ℚ) (col : color_t)
    (lineI : LineInfo) :
    containsStr (json_visit (.circle clip pos radius col lineI)) ", \"fill\": \"" = true := by
  rw [containsStr, decide_eq_true_eq]
  refine ⟨("\"type\": \"circle\", \"clip_id\": " ++ toString clip ++ ", \"x\": "
    ++ fmt2 pos.x ++ ", \"y\": " ++ fmt2 pos.y ++ ", \"r\": " ++ fmt2 radius).data,
    (hexcol col ++ "\", \"line\": " ++ json_lineinfo lineI).data, ?_⟩
  simp [json_visit, String.data_append, List.append_assoc]

theorem port_background_fill (c : color_t) :
    containsStr (port_background c) " fill=\"#" = true := by
  rw [containsStr, decide_eq_true_eq]
  refine ⟨("<rect width=\"100%\" height=\"100%\" stroke=\"none\"").data,
    (hex2 (color.red c) ++ hex2 (color.green c) ++ hex2 (color.blue c) ++ "\"/>\n").data, ?_⟩
  have hlit : ("<rect width=\"100%\" height=\"100%\" stroke=\"none\"" : String) ++ " fill=\"#"
      = "<rect width=\"100%\" height=\"100%\" stroke=\"none\" fill=\"#" := by decide
  rw [port_background, ← hlit]
  simp [String.data_append, List.append_assoc]

set_option maxRecDepth 8000 in
/-- Claim C1 (corrected), counterexample: a circle draw call whose
fill has alpha = 0 still makes the structured JSON backend emit a
`"fill"` attribute (the RGB hex string, alpha dropped), so it is not
true that a transparent fill emits no fill attribute in every
backend. -/
theorem C1_counterexample :
    color.alpha (color.rgba 0 0 0 0) = 0
    ∧ containsStr (json_visit (.circle 0 ⟨5, 5⟩ 2 (color.rgba 0 0 0 0)
        ⟨color.rgba 0 0 0 255, 1, 0, 1, 1, 10⟩)) "\"fill\": \"#000000\"" = true
    ∧ containsStr (port_background (color.rgba 0 0 0 0)) "fill=\"#000000\"" = true := by
  refine ⟨rfl, ?_, ?_⟩ <;> with_unfolding_all decide

/-- Claim C1 (amended): for a fill color with alpha = 0 the Cairo
backend performs no fill operation (for rectangles, circles, polygons,
paths, and the page background); the style-sheet SVG backend omits the
fill property on shapes and writes the explicit no-fill `fill: none;`
for the background; the portable SVG backend writes the explicit
attribute `fill="none"` on shapes but always colors its background
rectangle; and the structured JSON backend always emits the `"fill"`
field as an RGB hex string regardless of alpha. -/
theorem C1_transparent_fill (col : color_t) (h : color.alpha col = 0) :
    css_fill_or_omit col = ""
    ∧ css_fill_or_none col = "fill: none;"
    ∧ att_fill_or_none col = " fill=\"none\""
    ∧ (∀ (r : GRect) (lineI : LineInfo),
        (cairo_visit_rect r col lineI).countP cairo_is_fill = 0)
    ∧ (∀ (pos : GVertex) (radius : ℚ) (lineI : LineInfo),
        (cairo_visit_circle pos radius col lineI).countP cairo_is_fill = 0)
    ∧ (∀ (pts : List GVertex) (lineI : LineInfo),
        (cairo_visit_polygon pts col lineI).countP cairo_is_fill = 0)
    ∧ (∀ (pts : List GVertex) (nper : List ℤ) (lineI : LineInfo) (ops : List CairoOp),
        cairo_visit_path pts nper col lineI = some ops →
        ops.countP cairo_is_fill = 0)
    ∧ (∀ p : Page, p.fill = col → cairo_page_background p = [])
    ∧ (∀ (clip : ℤ) (pos : GVertex) (radius : ℚ) (lineI : LineInfo),
        containsStr (json_visit (.circle clip pos radius col lineI)) ", \"fill\": \"" = true)
    ∧ (∀ c : color_t, containsStr (port_background c) " fill=\"#" = true) := by
  have htr : color.transparent col = true := by simp [color.transparent, h]
  refine ⟨?_, ?_, ?_, ?_, ?_, ?_, ?_, ?_,
    fun clip pos radius lineI => json_circle_fill_attr clip pos radius col lineI,
    port_background_fill⟩
  · rw [css_fill_or_omit]
    simp [h]
  · rw [css_fill_or_none]
    simp [h]
  · rw [att_fill_or_none]
    simp [h]
  · intro r lineI
    rw [cairo_visit_rect, htr]
    simp only [List.countP_append, List.countP_cons, List.countP_nil,
      cairo_stroke_branch_no_fill]
    simp [cairo_is_fill]
  · intro pos radius lineI
    rw [cairo_visit_circle, htr]
    simp only [List.countP_append, List.countP_cons, List.countP_nil,
      cairo_stroke_branch_no_fill]
    simp [cairo_is_fill]
  · intro pts lineI
    rw [cairo_visit_polygon, htr]
    simp only [List.countP_append, List.countP_cons, List.countP_nil,
      cairo_stroke_branch_no_fill, cairo_poly_points_no_fill]
    simp [cairo_is_fill]
  · intro pts nper lineI ops hops
    rw [cairo_visit_path] at hops
    rcases hgo : cairo_path_go nper 0 pts with _ | segs
    · rw [hgo] at hops
      cases hops
    · rw [hgo] at hops
      cases hops
      have hsegs := cairo_path_go_no_fill nper 0 pts segs hgo
      rw [htr]
      simp only [List.countP_append, List.countP_cons, List.countP_nil,
        cairo_stroke_branch_no_fill, hsegs]
      simp [cairo_is_fill]
  · intro p hp
    rw [cairo_page_background, hp, htr]
    simp

/-- Witness for C1: the amended statement applied at transparent
black. -/
theorem C1_witness :
    css_fill_or_omit (color.rgba 0 0 0 0) = ""
    ∧ css_fill_or_none (color.rgba 0 0 0 0) = "fill: none;"
    ∧ (cairo_visit_rect ⟨0, 0, 4, 4⟩ (color.rgba 0 0 0 0)
        ⟨color.rgba 0 0 0 255, 1, 0, 1, 1, 10⟩).countP cairo_is_fill = 0 := by
  have h := C1_transparent_fill (color.rgba 0 0 0 0) (by rfl)
  exact ⟨h.1, h.2.1, h.2.2.2.1 ⟨0, 0, 4, 4⟩ ⟨color.rgba 0 0 0 255, 1, 0, 1, 1, 10⟩⟩

end Unigd

namespace Unigd

/-- Safety test for splicing a string into a JSON string literal with
no escaping: no double quote, no backslash, no control character. -/
def jsonStringSafe (s : String) : Bool :=
  s.data.all (fun c => !(c = '"' : Bool) && !(c = '\\' : Bool) && decide (32 ≤ c.toNat))

/-- Minimal JSON string-literal scanner: consumes characters up to the
first unescaped double quote, accepting backslash escape pairs and
rejecting raw control characters; returns the consumed raw content and
the remaining input. -/
def json_scan_string : List Char → Option (List Char × List Char)
  | [] => none
  | c :: rest =>
    if c = '"' then some ([], rest)
    else if c.toNat < 32 then none
    else if c = '\\' then
      match rest with
      | [] => none
      | e :: rest2 =>
        (json_scan_string rest2).map (fun p => (c :: e :: p.1, p.2))
    else (json_scan_string rest).map (fun p => (c :: p.1, p.2))

theorem esc_char_no_specials (c x : Char) (hx : x ∈ (esc_char c).data) :
    x ≠ '<' ∧ x ≠ '>' ∧ x ≠ '"' ∧ x ≠ Char.ofNat 39 := by
  rw [esc_char] at hx
  split_ifs at hx with h1 h2 h3 h4 h5
  · fin_cases hx <;> refine ⟨by decide, by decide, by decide, by decide⟩
  · fin_cases hx <;> refine ⟨by decide, by decide, by decide, by decide⟩
  · fin_cases hx <;> refine ⟨by decide, by decide, by decide, by decide⟩
  · fin_cases hx <;> refine ⟨by decide, by decide, by decide, by decide⟩
  · fin_cases hx <;> refine ⟨by decide, by decide, by decide, by decide⟩
  · have hxc : x = c := by simpa using hx
    subst hxc
    exact ⟨h2, h3, h4, h5⟩

/-- The XML escaper leaves no raw markup-significant character in its
output: every `<`, `>`, `"` and apostrophe of the input has been
replaced by an entity. -/
theorem write_xml_escaped_no_specials (s : String) :
    ∀ x ∈ (write_xml_escaped s).data,
      x ≠ '<' ∧ x ≠ '>' ∧ x ≠ '"' ∧ x ≠ Char.ofNat 39 := by
  rw [write_xml_escaped]
  induction s.data with
  | nil => intro x hx; simp [write_xml_escaped_go] at hx
  | cons c cs ih =>
    intro x hx
    rw [write_xml_escaped_go, String.data_append, List.mem_append] at hx
    rcases hx with hx | hx
    · exact esc_char_no_specials c x hx
    · exact ih x hx

/-- Splicing a safe string between quotes scans back verbatim. -/
theorem json_scan_safe (rest : List Char) :
    ∀ (l : List Char),
      (l.all (fun c => !(c = '"' : Bool) && !(c = '\\' : Bool)
        && decide (32 ≤ c.toNat))) = true →
      json_scan_string (l ++ '"' :: rest) = some (l, rest)
  | [], _ => by
    rw [List.nil_append, json_scan_string.eq_def]
    simp
  | c :: cs, h => by
    simp only [List.all_cons, Bool.and_eq_true, decide_eq_true_eq, Bool.not_eq_true',
      decide_eq_false_iff_not] at h
    obtain ⟨⟨⟨hq, hb⟩, hctl⟩, hrest⟩ := h
    rw [List.cons_append, json_scan_string.eq_def]
    dsimp only
    rw [if_neg hq, if_neg (by omega), if_neg hb]
    rw [json_scan_safe rest cs (by simpa using hrest)]
    rfl

/-- Claim C10 (confirmed): the structured JSON backend splices the
text string verbatim between the fixed prefix and suffix of the text
record, with no escaping (the prefix and suffix do not depend on the
string), while the SVG backends escape text through the five-character
XML escaper, whose output contains no raw `<`, `>`, `"` or apostrophe;
consequently the quoted `"str"` field scans back as the original
content exactly when the string has no double quote, backslash or
control character, and a string carrying a raw double quote (`a"b`)
terminates the scan early, so the emitted record is well-formed JSON
only for safe strings. -/
theorem C10_text_escaping (clip : ℤ) (pos : GVertex) (rot hadj : ℚ) (col : color_t)
    (s : String) (info : TextInfo) (rest : List Char) :
    json_visit (.text clip pos rot hadj col s info)
      = json_text_before clip pos rot hadj col ++ s ++ json_text_after info
    ∧ (∀ x ∈ (write_xml_escaped s).data,
        x ≠ '<' ∧ x ≠ '>' ∧ x ≠ '"' ∧ x ≠ Char.ofNat 39)
    ∧ (jsonStringSafe s = true →
        json_scan_string (s.data ++ '"' :: rest) = some (s.data, rest))
    ∧ json_scan_string (("a\"b").data ++ '"' :: []) = some (("a").data, ['b', '"'])
    ∧ ("a\"b" : String) ≠ "a" := by
  refine ⟨rfl, write_xml_escaped_no_specials s, ?_, by decide, by decide⟩
  intro hsafe
  exact json_scan_safe rest s.data (by simpa [jsonStringSafe] using hsafe)

/-- Witness for C10: the conjunction instantiated at a concrete safe
string. -/
theorem C10_witness :
    json_scan_string (("ok").data ++ '"' :: []) = some (("ok").data, []) := by
  have h := C10_text_escaping 0 ⟨0, 0⟩ 0 0 0 "ok" ⟨400, "", "sans", 12, false, 0⟩ []
  exact h.2.2.1 (by decide)

end Unigd

namespace Unigd

/-- Claim C9 (corrected), counterexample: the structured JSON
backend's page renderer never reads the first element of the clip
list; a page with an empty clip list renders to a well-defined
document, so "every backend's page renderer unconditionally reads the
first clip, and rendering is only defined for non-empty clip lists"
fails for the JSON backend. -/
theorem C9_counterexample :
    json_render
      { id := 1, size := ⟨4, 4⟩, fill := color.rgba 255 255 255 255,
        cps := [], dcs := [] } 1
    = "\x7b\n \"id\": \"1\", \"w\": 4.00, \"h\": 4.00, \"scale\": 1.00, \"fill\": \"#FFFFFF\",\n \"clips\": [\n  \n ],\n \"draw_calls\": [\n  \n ]\n\x7d" := by
  with_unfolding_all decide

/-- Claim C9 (amended): the style-sheet SVG, portable SVG and Cairo
page renderers read `cps.front()` before iterating draw calls, so
their rendering is undefined (`none`) exactly when the clip list is
empty; under the non-empty precondition the front access is in bounds
and rendering succeeds whenever the draw-call loop itself succeeds.
The structured JSON page renderer is the exception: it never reads the
first clip and is total (see the counterexample). -/
theorem C9_first_clip_precondition (p : Page) (scale : ℚ) (css : Option String)
    (tok : String) :
    (p.cps = [] →
      svg_render css p scale = none ∧ port_render tok p scale = none
      ∧ cairo_render_page p = none)
    ∧ (∀ c0 rest, p.cps = c0 :: rest →
        ((svg_dc_loop c0.id p.dcs).isSome ↔ (svg_render css p scale).isSome)
        ∧ ((port_dc_loop tok c0.id p.dcs).isSome ↔ (port_render tok p scale).isSome)
        ∧ ((cairo_dc_loop p.cps c0.id p.dcs).isSome ↔ (cairo_render_page p).isSome)) := by
  constructor
  · intro hcps
    refine ⟨?_, ?_, ?_⟩
    · rw [svg_render, svg_page_pieces.eq_def, hcps]
      rfl
    · rw [port_render, port_page_pieces.eq_def, hcps]
      rfl
    · rw [cairo_render_page.eq_def, hcps]
  · intro c0 rest hcps
    refine ⟨?_, ?_, ?_⟩
    · rw [svg_render, svg_page_pieces.eq_def, hcps]
      simp [Option.isSome_map]
    · rw [port_render, port_page_pieces.eq_def, hcps]
      simp [Option.isSome_map]
    · rw [cairo_render_page.eq_def, hcps]
      simp [Option.isSome_map]

/-- Witness for C9: a page with one clip and no draw calls renders
successfully through all three front-reading backends. -/
theorem C9_witness :
    ((svg_dc_loop 0 ([] : List DrawCall)).isSome
      ↔ (svg_render none
          { id := 1, size := ⟨4, 4⟩, fill := color.rgba 255 255 255 255,
            cps := [⟨0, ⟨0, 0, 4, 4⟩⟩], dcs := [] } 1).isSome)
    ∧ (svg_render none
        { id := 1, size := ⟨4, 4⟩, fill := color.rgba 255 255 255 255,
          cps := [], dcs := [] } 1 = none) := by
  have h := C9_first_clip_precondition
    { id := 1, size := ⟨4, 4⟩, fill := color.rgba 255 255 255 255,
      cps := [⟨0, ⟨0, 0, 4, 4⟩⟩], dcs := [] } 1 none "t"
  have h2 := C9_first_clip_precondition
    { id := 1, size := ⟨4, 4⟩, fill := color.rgba 255 255 255 255,
      cps := [], dcs := [] } 1 none "t"
  exact ⟨(h.2 ⟨0, ⟨0, 0, 4, 4⟩⟩ [] rfl).1, (h2.1 rfl).1⟩

end Unigd

namespace Unigd

/-- Concatenation of token-hole part lists: the last part of `a` fuses
with the first part of `b`; the token positions are preserved. -/
def tcat : List String → List String → List String
  | [], b => b
  | [a], [] => [a]
  | [a], b :: bs => (a ++ b) :: bs
  | a :: as, b => a :: tcat as b

/-- Rebuild the spliced string from a part list by inserting the token
between consecutive parts. -/
def tokJoin (tok : String) : List String → String
  | [] => ""
  | [a] => a
  | a :: as => a ++ tok ++ tokJoin tok as

theorem tcat_eq_nil_iff (a b : List String) : tcat a b = [] ↔ a = [] ∧ b = [] := by
  match a, b with
  | [], b => simp [tcat]
  | [a], [] => simp [tcat]
  | [a], b :: bs => simp [tcat]
  | a :: a' :: as, b => simp [tcat]

theorem tokJoin_cons (tok : String) (a z : String) (zs : List String) :
    tokJoin tok (a :: z :: zs) = a ++ tok ++ tokJoin tok (z :: zs) := rfl

theorem tokJoin_tcat (tok : String) : ∀ (a b : List String),
    tokJoin tok (tcat a b) = tokJoin tok a ++ tokJoin tok b
  | [], b => by simp [tcat, tokJoin]
  | [a], [] => by simp [tcat, tokJoin]
  | [a], b :: bs => by
    rcases bs with _ | ⟨b', bs⟩
    · simp [tcat, tokJoin, String.append_assoc]
    · rw [show tcat [a] (b :: b' :: bs) = (a ++ b) :: b' :: bs from rfl,
        tokJoin_cons, tokJoin_cons]
      simp [tokJoin, String.append_assoc]
  | a :: a' :: as, b => by
    have hne : tcat (a' :: as) b ≠ [] := by
      rw [Ne, tcat_eq_nil_iff]
      simp
    rcases hz : tcat (a' :: as) b with _ | ⟨z, zs⟩
    · exact absurd hz hne
    rw [show tcat (a :: a' :: as) b = a :: tcat (a' :: as) b from rfl, hz, tokJoin_cons,
      ← hz, tokJoin_tcat tok (a' :: as) b, tokJoin_cons]
    simp [String.append_assoc]

theorem join_cons (a : String) (l : List String) :
    String.join (a :: l) = a ++ String.join l := by
  apply String.ext
  simp [String.join_eq, String.data_append]

theorem join_append (l1 l2 : List String) :
    String.join (l1 ++ l2) = String.join l1 ++ String.join l2 := by
  apply String.ext
  simp [String.join_eq, String.data_append]

/-- Token-hole decomposition of the portable initial group opening. -/
def port_open_first_parts (id : ℤ) : List String :=
  ["<g clip-path=\"url(#c" ++ toString id ++ "-", ")\">\n"]

/-- Token-hole decomposition of the portable clip-change opening. -/
def port_open_next_parts (id : ℤ) : List String :=
  ["</g><g clip-path=\"url(#c" ++ toString id ++ "-", ")\">\n"]

/-- Token-hole decomposition of one portable clip-path definition. -/
def port_clip_def_parts (cp : Clip) : List String :=
  ["<clipPath id=\"c" ++ toString cp.id ++ "-",
   "\"><rect x=\"" ++ fmt2 cp.rect.x ++ "\" y=\"" ++ fmt2 cp.rect.y ++ "\" width=\""
     ++ fmt2 cp.rect.width ++ "\" height=\"" ++ fmt2 cp.rect.height ++ "\"/></clipPath>\n"]

/-- Token-hole decomposition of the portable defs block. -/
def port_clip_defs_parts : List Clip → List String
  | [] => [""]
  | cp :: cps => tcat (port_clip_def_parts cp) (port_clip_defs_parts cps)

/-- Token-hole decomposition of the portable draw-call loop. -/
def port_dc_loop_parts : ℤ → List DrawCall → Option (List String)
  | _, [] => some [""]
  | last_id, dc :: dcs =>
    if dc.clip_id ≠ last_id then
      (port_visit dc).bind (fun v =>
        (port_dc_loop_parts dc.clip_id dcs).map (fun rest =>
          tcat (port_open_next_parts dc.clip_id) (tcat [v ++ "\n"] rest)))
    else
      (port_visit dc).bind (fun v =>
        (port_dc_loop_parts last_id dcs).map (fun rest => tcat [v ++ "\n"] rest))

/-- Token-hole decomposition of the complete portable SVG output: a
part list depending only on the page and scale, never on the drawn
token. -/
def port_page_parts (p : Page) (scale : ℚ) : Option (List String) :=
  match p.cps with
  | [] => none
  | c0 :: _ =>
    (port_dc_loop_parts c0.id p.dcs).map (fun body =>
      tcat ["<svg xmlns=\"http://www.w3.org/2000/svg\" xmlns:xlink=\"http://www.w3.org/1999/xlink\" class=\"httpgd\" "
          ++ ("width=\"" ++ fmt2 (p.size.x * scale) ++ "\" height=\"" ++ fmt2 (p.size.y * scale)
            ++ "\" viewBox=\"0 0 " ++ fmt2 p.size.x ++ " " ++ fmt2 p.size.y
            ++ "\">\n<defs>\n")]
        (tcat (port_clip_defs_parts p.cps)
          (tcat ["</defs>\n" ++ port_background p.fill]
            (tcat (port_open_first_parts c0.id)
              (tcat body ["</g>\n</svg>"])))))

theorem open_first_join (tok : String) (id : ℤ) :
    tokJoin tok (port_open_first_parts id) = port_open_first id tok := by
  simp [port_open_first_parts, port_open_first, tokJoin, String.append_assoc]

theorem open_next_join (tok : String) (id : ℤ) :
    tokJoin tok (port_open_next_parts id) = port_open_next id tok := by
  simp [port_open_next_parts, port_open_next, tokJoin, String.append_assoc]

theorem clip_def_join (tok : String) (cp : Clip) :
    tokJoin tok (port_clip_def_parts cp) = port_clip_def tok cp := by
  simp [port_clip_def_parts, port_clip_def, tokJoin, String.append_assoc]

theorem clip_defs_join (tok : String) : ∀ cps : List Clip,
    tokJoin tok (port_clip_defs_parts cps) = String.join (cps.map (port_clip_def tok))
  | [] => rfl
  | cp :: cps => by
    rw [port_clip_defs_parts, tokJoin_tcat, clip_def_join, List.map_cons, join_cons,
      clip_defs_join tok cps]

theorem loop_join (tok : String) : ∀ (last_id : ℤ) (dcs : List DrawCall),
    (port_dc_loop tok last_id dcs).map String.join
      = (port_dc_loop_parts last_id dcs).map (tokJoin tok)
  | _, [] => rfl
  | last_id, dc :: dcs => by
    rw [port_dc_loop, port_dc_loop_parts]
    by_cases hcl : dc.clip_id ≠ last_id
    · rw [if_pos hcl, if_pos hcl]
      rcases hv : port_visit dc with _ | v
      · rfl
      rcases hrest : port_dc_loop tok dc.clip_id dcs with _ | pieces
      · have := loop_join tok dc.clip_id dcs
        rw [hrest] at this
        rcases hparts : port_dc_loop_parts dc.clip_id dcs with _ | parts
        · rfl
        · rw [hparts] at this
          exact absurd this.symm (by simp)
      · have := loop_join tok dc.clip_id dcs
        rw [hrest] at this
        rcases hparts : port_dc_loop_parts dc.clip_id dcs with _ | parts
        · rw [hparts] at this
          exact absurd this (by simp)
        · rw [hparts] at this
          simp only [Option.map_some', Option.some.injEq] at this
          simp only [Option.some_bind, Option.map_some', Option.some.injEq]
          rw [tokJoin_tcat, tokJoin_tcat, open_next_join, join_cons, join_cons, join_cons, this]
          simp [tokJoin, String.append_assoc]
    · rw [if_neg hcl, if_neg hcl]
      rcases hv : port_visit dc with _ | v
      · rfl
      rcases hrest : port_dc_loop tok last_id dcs with _ | pieces
      · have := loop_join tok last_id dcs
        rw [hrest] at this
        rcases hparts : port_dc_loop_parts last_id dcs with _ | parts
        · rfl
        · rw [hparts] at this
          exact absurd this.symm (by simp)
      · have := loop_join tok last_id dcs
        rw [hrest] at this
        rcases hparts : port_dc_loop_parts last_id dcs with _ | parts
        · rw [hparts] at this
          exact absurd this (by simp)
        · rw [hparts] at this
          simp only [Option.map_some', Option.some.injEq] at this
          simp only [Option.some_bind, Option.map_some', Option.some.injEq]
          rw [tokJoin_tcat, join_cons, join_cons, this]
          simp [tokJoin, String.append_assoc]

/-- Claim C6 (confirmed): every backend of the embedding is a pure
function of the page and scale alone, so rendering the same page twice
through the style-sheet SVG, JSON, or Cairo backend yields
byte-identical output definitionally; the portable SVG backend's
output factors as `tokJoin tok` of a part list `port_page_parts` that
does not depend on the drawn unique token, so two portable renders of
the same page differ exactly in the substrings where the per-render
token is spliced into the clip-path identifiers. -/
theorem C6_determinism_token (p : Page) (scale : ℚ) (css : Option String) :
    (∀ tok, port_render tok p scale = (port_page_parts p scale).map (tokJoin tok))
    ∧ svg_render css p scale = svg_render css p scale
    ∧ json_render p scale = json_render p scale
    ∧ cairo_render_page p = cairo_render_page p := by
  refine ⟨fun tok => ?_, rfl, rfl, rfl⟩
  rw [port_render, port_page_pieces.eq_def, port_page_parts.eq_def]
  rcases hcps : p.cps with _ | ⟨c0, rest⟩
  · rfl
  · dsimp only
    have hl := loop_join tok c0.id p.dcs
    rcases hloop : port_dc_loop tok c0.id p.dcs with _ | pieces <;>
      rcases hparts : port_dc_loop_parts c0.id p.dcs with _ | parts <;>
      rw [hloop, hparts] at hl
    · rfl
    · exact absurd hl (by simp)
    · exact absurd hl (by simp)
    · simp only [Option.map_some', Option.some.injEq] at hl
      simp only [Option.map_some', Option.some.injEq]
      simp only [tokJoin_tcat, clip_defs_join, open_first_join, join_cons, join_append]
      rw [hl]
      simp [tokJoin, String.append_assoc, join_cons,
        show String.join ([] : List String) = "" from rfl]

end Unigd

namespace Unigd

/-- Maximal-run partition of a draw-call list by clip id: each element
is a pair of the run's clip id and its (nonempty) draw calls, built by
a right fold. -/
def runsFrom : List DrawCall → List (ℤ × List DrawCall)
  | [] => []
  | d :: ds =>
    match runsFrom ds with
    | [] => [(d.clip_id, [d])]
    | (i, r) :: rest =>
      if d.clip_id = i then (d.clip_id, d :: r) :: rest
      else (d.clip_id, [d]) :: (i, r) :: rest

/-- Run partition with the page's initial clip prepended: if the first
run already uses the initial clip it is absorbed into the initial
group, otherwise the initial group is empty. -/
def runsOf (firstId : ℤ) (dcs : List DrawCall) : List (ℤ × List DrawCall) :=
  match runsFrom dcs with
  | [] => [(firstId, [])]
  | (i, r) :: rest =>
    if i = firstId then (i, r) :: rest
    else (firstId, []) :: (i, r) :: rest

/-- Generic form of the two SVG draw-call loops, abstracted over the
shape visitor and the group-opening emission. -/
def gen_dc_loop (visit : DrawCall → Option String) (openN : ℤ → String) :
    ℤ → List DrawCall → Option (List String)
  | _, [] => some []
  | last_id, dc :: dcs =>
    if dc.clip_id ≠ last_id then
      (visit dc).bind (fun v =>
        (gen_dc_loop visit openN dc.clip_id dcs).map (fun rest =>
          openN dc.clip_id :: v :: "\n" :: rest))
    else
      (visit dc).bind (fun v =>
        (gen_dc_loop visit openN last_id dcs).map (fun rest => v :: "\n" :: rest))

/-- Pieces of one run's draw calls (visit plus newline each). -/
def gen_run_body (visit : DrawCall → Option String) : List DrawCall → Option (List String)
  | [] => some []
  | d :: ds =>
    (visit d).bind (fun v =>
      (gen_run_body visit ds).map (fun rest => v :: "\n" :: rest))

/-- Pieces of a run list in which every run opens its own group. -/
def gen_runs_rest (visit : DrawCall → Option String) (openN : ℤ → String) :
    List (ℤ × List DrawCall) → Option (List String)
  | [] => some []
  | (j, ds) :: rest =>
    (gen_run_body visit ds).bind (fun b =>
      (gen_runs_rest visit openN rest).map (fun r => openN j :: b ++ r))

/-- Continuation form of the loop over a run list: a run whose id
equals the active id is absorbed (no opener). -/
def gen_cont_runs (visit : DrawCall → Option String) (openN : ℤ → String) :
    ℤ → List (ℤ × List DrawCall) → Option (List String)
  | _, [] => some []
  | i, (j, ds) :: rest =>
    (gen_run_body visit ds).bind (fun b =>
      (gen_cont_runs visit openN j rest).map (fun r =>
        (if j = i then b else openN j :: b) ++ r))

theorem runsFrom_eq_nil_iff (dcs : List DrawCall) : runsFrom dcs = [] ↔ dcs = [] := by
  rcases dcs with _ | ⟨d, ds⟩
  · simp [runsFrom]
  · rw [runsFrom]
    rcases runsFrom ds with _ | ⟨⟨i, r⟩, rest⟩
    · simp
    · dsimp only
      split <;> simp

theorem runsFrom_head_id (d : DrawCall) (ds : List DrawCall) :
    ∃ r rest, runsFrom (d :: ds) = (d.clip_id, r) :: rest := by
  rw [runsFrom]
  rcases runsFrom ds with _ | ⟨⟨i, r⟩, rest⟩
  · exact ⟨[d], [], rfl⟩
  · dsimp only
    split
    · exact ⟨d :: r, rest, rfl⟩
    · exact ⟨[d], (i, r) :: rest, rfl⟩

end Unigd

namespace Unigd

theorem svg_dc_loop_eq_gen (i : ℤ) (dcs : List DrawCall) :
    svg_dc_loop i dcs = gen_dc_loop svg_visit svg_open_next i dcs := by
  induction dcs generalizing i with
  | nil => rfl
  | cons d ds ih =>
    rw [svg_dc_loop, gen_dc_loop]
    split
    · rw [ih]
    · rw [ih]

theorem port_dc_loop_eq_gen (tok : String) (i : ℤ) (dcs : List DrawCall) :
    port_dc_loop tok i dcs
      = gen_dc_loop port_visit (fun j => port_open_next j tok) i dcs := by
  induction dcs generalizing i with
  | nil => rfl
  | cons d ds ih =>
    rw [port_dc_loop, gen_dc_loop]
    split
    · rw [ih]
    · rw [ih]

/-- The draw-call loop, grouped: it equals the continuation fold over the
maximal-run partition. -/
theorem gen_loop_runs (visit : DrawCall → Option String) (openN : ℤ → String) :
    ∀ (dcs : List DrawCall) (i : ℤ),
      gen_dc_loop visit openN i dcs = gen_cont_runs visit openN i (runsFrom dcs) := by
  intro dcs
  induction dcs with
  | nil => intro i; rfl
  | cons d ds ih =>
    intro i
    rw [gen_dc_loop, runsFrom]
    rcases hds : runsFrom ds with _ | ⟨⟨j, r⟩, rest⟩
    · have hnil : ds = [] := (runsFrom_eq_nil_iff ds).mp hds
      subst hnil
      dsimp only
      rw [gen_cont_runs, gen_run_body, gen_run_body, gen_cont_runs]
      by_cases h : d.clip_id = i
      · rw [if_neg (by simpa using h)]
        rcases visit d with _ | v
        · rfl
        · simp [h, gen_dc_loop]
      · rw [if_pos (by simpa using h)]
        rcases visit d with _ | v
        · rfl
        · simp [h, gen_dc_loop]
    · dsimp only
      by_cases hdj : d.clip_id = j
      · rw [if_pos hdj]
        rw [gen_cont_runs, gen_run_body]
        by_cases h : d.clip_id = i
        · have hji : j = i := hdj ▸ h
          rw [if_neg (by simpa using h), ih i, hds, gen_cont_runs]
          rcases visit d with _ | v
          · rfl
          · rcases hb : gen_run_body visit r with _ | b
            · simp [hb]
            · rcases hc : gen_cont_runs visit openN j rest with _ | rr
              all_goals rw [hji] at hc
              · simp [hb, hc, hji, h]
              · simp [hb, hc, hji, h]
        · have hjd : j = d.clip_id := hdj.symm
          rw [if_pos (by simpa using h), ih d.clip_id, hds, gen_cont_runs]
          rcases visit d with _ | v
          · rfl
          · rcases hb : gen_run_body visit r with _ | b
            · simp [hb]
            · rcases hc : gen_cont_runs visit openN j rest with _ | rr
              all_goals rw [hdj.symm] at hc
              · simp [hb, hc, hjd, h]
              · simp [hb, hc, hjd, h]
      · rw [if_neg hdj]
        rw [gen_cont_runs, gen_run_body, gen_run_body]
        by_cases h : d.clip_id = i
        · rw [if_neg (by simpa using h), ih i, hds]
          rcases visit d with _ | v
          · rfl
          · rcases hc : gen_cont_runs visit openN i ((j, r) :: rest)
              with _ | rr
            all_goals
              have hc2 := hc
              rw [← h] at hc2
            · simp [hc, hc2, h]
            · simp [hc, hc2, h]
        · rw [if_pos (by simpa using h), ih d.clip_id, hds]
          rcases visit d with _ | v
          · rfl
          · rcases hc : gen_cont_runs visit openN d.clip_id ((j, r) :: rest)
              with _ | rr
            · simp [hc]
            · simp [hc, h]

end Unigd

namespace Unigd

/-- Active-id continuation equals the one-opener-per-run form when no
run repeats the previous id and the first run differs from the active
id. -/
theorem gen_cont_eq_rest (visit : DrawCall → Option String) (openN : ℤ → String) :
    ∀ (rs : List (ℤ × List DrawCall)) (i : ℤ),
      List.Chain' (fun a b => a.1 ≠ b.1) rs →
      (∀ hd ∈ rs.head?, hd.1 ≠ i) →
      gen_cont_runs visit openN i rs = gen_runs_rest visit openN rs := by
  intro rs
  induction rs with
  | nil => intro i _ _; rfl
  | cons p rest ih =>
    intro i hchain hhd
    obtain ⟨j, ds⟩ := p
    have hji : j ≠ i := hhd (j, ds) rfl
    rw [gen_cont_runs, gen_runs_rest]
    simp only [if_neg hji]
    rw [ih j (List.Chain'.tail hchain) ?_]
    intro hd hmem
    rcases rest with _ | ⟨q, rest2⟩
    · simp at hmem
    · simp only [List.head?_cons, Option.mem_def, Option.some.injEq] at hmem
      subst hmem
      exact (List.chain'_cons.mp hchain).1.symm

theorem runsFrom_chain (dcs : List DrawCall) :
    List.Chain' (fun a b => (a.1 : ℤ) ≠ b.1) (runsFrom dcs) := by
  induction dcs with
  | nil => exact List.chain'_nil
  | cons d ds ih =>
    rw [runsFrom]
    rcases hds : runsFrom ds with _ | ⟨⟨j, r⟩, rest⟩
    · simp
    · rw [hds] at ih
      dsimp only
      by_cases hdj : d.clip_id = j
      · rw [if_pos hdj]
        rcases rest with _ | ⟨q, rest2⟩
        · simp
        · rw [List.chain'_cons] at ih ⊢
          exact ⟨hdj ▸ ih.1, ih.2⟩
      · rw [if_neg hdj]
        exact List.chain'_cons.mpr ⟨hdj, ih⟩

/-- The run partition flattens back to the original draw-call list. -/
theorem runsFrom_flatten (dcs : List DrawCall) :
    ((runsFrom dcs).map (fun rn => rn.2)).flatten = dcs := by
  induction dcs with
  | nil => rfl
  | cons d ds ih =>
    rw [runsFrom]
    rcases hds : runsFrom ds with _ | ⟨⟨j, r⟩, rest⟩
    · have hnil : ds = [] := (runsFrom_eq_nil_iff ds).mp hds
      subst hnil
      simp
    · rw [hds] at ih
      dsimp only
      by_cases hdj : d.clip_id = j
      · rw [if_pos hdj]
        simp only [List.map_cons, List.flatten_cons] at ih ⊢
        rw [List.cons_append, ih]
      · rw [if_neg hdj]
        simp only [List.map_cons, List.flatten_cons] at ih ⊢
        rw [List.singleton_append, ih]

/-- Every run is nonempty and all its members carry the run's id. -/
theorem runsFrom_members (dcs : List DrawCall) :
    ∀ rn ∈ runsFrom dcs, rn.2 ≠ [] ∧ ∀ d ∈ rn.2, d.clip_id = rn.1 := by
  induction dcs with
  | nil => intro rn h; simp [runsFrom] at h
  | cons d ds ih =>
    intro rn hrn
    rw [runsFrom] at hrn
    rcases hds : runsFrom ds with _ | ⟨⟨j, r⟩, rest⟩
    · rw [hds] at hrn
      simp only [List.mem_singleton] at hrn
      subst hrn
      exact ⟨by simp, by intro e he; simp at he; simp [he]⟩
    · rw [hds] at hrn ih
      dsimp only at hrn
      by_cases hdj : d.clip_id = j
      · rw [if_pos hdj] at hrn
        rcases List.mem_cons.mp hrn with h1 | h2
        · subst h1
          refine ⟨by simp, ?_⟩
          intro e he
          rcases List.mem_cons.mp he with h3 | h4
          · simp [h3]
          · have := (ih (j, r) (List.mem_cons_self _ _)).2 e h4
            simpa [hdj] using this
        · exact ih rn (List.mem_cons_of_mem _ h2)
      · rw [if_neg hdj] at hrn
        rcases List.mem_cons.mp hrn with h1 | h2
        · subst h1
          exact ⟨by simp, by intro e he; simp at he; simp [he]⟩
        · exact ih rn h2

end Unigd

namespace Unigd

/-- One-grouping-element-per-run form of a page body: the initial group
(opened with `openF`) covers the first run of `runsOf`, and every later
run contributes exactly one `openN` grouping element. -/
def gen_runs_pieces (visit : DrawCall → Option String) (openF openN : ℤ → String)
    (firstId : ℤ) (dcs : List DrawCall) : Option (List String) :=
  match runsOf firstId dcs with
  | [] => none
  | (i, ds) :: rest =>
    (gen_run_body visit ds).bind (fun b =>
      (gen_runs_rest visit openN rest).map (fun r => openF i :: b ++ r))

/-- The initial group opener followed by the draw-call loop equals the
one-opener-per-run pieces. -/
theorem gen_first_runs (visit : DrawCall → Option String) (openF openN : ℤ → String)
    (i : ℤ) (dcs : List DrawCall) :
    (gen_dc_loop visit openN i dcs).map (fun body => openF i :: body)
      = gen_runs_pieces visit openF openN i dcs := by
  rw [gen_loop_runs, gen_runs_pieces, runsOf]
  rcases hds : runsFrom dcs with _ | ⟨⟨j, r⟩, rest⟩
  · simp [gen_cont_runs, gen_run_body, gen_runs_rest]
  · have hchain := runsFrom_chain dcs
    rw [hds] at hchain
    dsimp only
    by_cases hji : j = i
    · rw [if_pos hji]
      subst hji
      rw [gen_cont_runs]
      have hrest : gen_cont_runs visit openN j rest = gen_runs_rest visit openN rest := by
        refine gen_cont_eq_rest visit openN rest j (List.Chain'.tail hchain) ?_
        intro hd hmem
        rcases rest with _ | ⟨q, rest2⟩
        · simp at hmem
        · simp only [List.head?_cons, Option.mem_def, Option.some.injEq] at hmem
          subst hmem
          exact (List.chain'_cons.mp hchain).1.symm
      rw [hrest]
      rcases hb : gen_run_body visit r with _ | b
      · simp [hb]
      · rcases hr : gen_runs_rest visit openN rest with _ | rr
        · simp [hb, hr]
        · simp [hb, hr]
    · rw [if_neg hji]
      have hrest : gen_cont_runs visit openN i ((j, r) :: rest)
          = gen_runs_rest visit openN ((j, r) :: rest) := by
        refine gen_cont_eq_rest visit openN _ i hchain ?_
        intro hd hmem
        simp only [List.head?_cons, Option.mem_def, Option.some.injEq] at hmem
        subst hmem
        exact hji
      rw [hrest]
      rcases hb : gen_run_body visit r with _ | b
      · simp [hb, gen_runs_rest, gen_run_body]
      · rcases hr : gen_runs_rest visit openN rest with _ | rr
        · simp [hb, hr, gen_runs_rest, gen_run_body]
        · simp [hb, hr, gen_runs_rest, gen_run_body]

end Unigd

namespace Unigd

/-- Header section of `RendererSVG::page` (everything written before the
first grouping element). -/
def svg_header_pieces (extra_css : Option String) (p : Page) (scale : ℚ) :
    List String :=
  "<svg xmlns=\"http://www.w3.org/2000/svg\" xmlns:xlink=\"http://www.w3.org/1999/xlink\" class=\"httpgd\" "
  :: ("width=\"" ++ fmt2 (p.size.x * scale) ++ "\" height=\"" ++ fmt2 (p.size.y * scale)
      ++ "\" viewBox=\"0 0 " ++ fmt2 p.size.x ++ " " ++ fmt2 p.size.y ++ "\"")
  :: svg_style_head
  :: (match extra_css with
      | some css => [css ++ "\n"]
      | none => [])
  ++ "  ]]></style>\n"
  :: p.cps.map svg_clip_def
  ++ ["</defs>\n<rect width=\"100%\" height=\"100%\" style=\"stroke: none;",
      css_fill_or_none p.fill, "\"/>\n"]

/-- Header section of `RendererSVGPortable::page` (everything written
before the first grouping element). -/
def port_header_pieces (tok : String) (p : Page) (scale : ℚ) : List String :=
  "<svg xmlns=\"http://www.w3.org/2000/svg\" xmlns:xlink=\"http://www.w3.org/1999/xlink\" class=\"httpgd\" "
  :: ("width=\"" ++ fmt2 (p.size.x * scale) ++ "\" height=\"" ++ fmt2 (p.size.y * scale)
      ++ "\" viewBox=\"0 0 " ++ fmt2 p.size.x ++ " " ++ fmt2 p.size.y
      ++ "\">\n<defs>\n")
  :: p.cps.map (port_clip_def tok)
  ++ ["</defs>\n", port_background p.fill]

theorem svg_page_runs (extra_css : Option String) (p : Page) (scale : ℚ)
    (c0 : Clip) (crest : List Clip) (h : p.cps = c0 :: crest) :
    svg_page_pieces extra_css p scale
      = (gen_runs_pieces svg_visit svg_open_first svg_open_next c0.id p.dcs).map
          (fun grouped =>
            svg_header_pieces extra_css p scale ++ grouped ++ ["</g>\n</svg>"]) := by
  rw [svg_page_pieces.eq_def, svg_header_pieces.eq_def, h]
  dsimp only
  rw [← gen_first_runs, svg_dc_loop_eq_gen]
  rcases gen_dc_loop svg_visit svg_open_next c0.id p.dcs with _ | body
  · rfl
  · simp [h]

theorem port_page_runs (tok : String) (p : Page) (scale : ℚ)
    (c0 : Clip) (crest : List Clip) (h : p.cps = c0 :: crest) :
    port_page_pieces tok p scale
      = (gen_runs_pieces port_visit (fun j => port_open_first j tok)
            (fun j => port_open_next j tok) c0.id p.dcs).map
          (fun grouped =>
            port_header_pieces tok p scale ++ grouped ++ ["</g>\n</svg>"]) := by
  rw [port_page_pieces.eq_def, port_header_pieces, h]
  dsimp only
  rw [← gen_first_runs, port_dc_loop_eq_gen]
  rcases gen_dc_loop port_visit (fun j => port_open_next j tok) c0.id p.dcs
    with _ | body
  · rfl
  · simp [h]

end Unigd

namespace Unigd

/-- The run partition with initial clip prepended also flattens back to
the draw-call list (the possible extra leading run is empty). -/
theorem runsOf_flatten (fid : ℤ) (dcs : List DrawCall) :
    ((runsOf fid dcs).map (fun rn => rn.2)).flatten = dcs := by
  rw [runsOf]
  rcases hds : runsFrom dcs with _ | ⟨⟨j, r⟩, rest⟩
  · simp [(runsFrom_eq_nil_iff dcs).mp hds]
  · have hfl := runsFrom_flatten dcs
    rw [hds] at hfl
    dsimp only
    by_cases hj : j = fid
    · rw [if_pos hj]; exact hfl
    · rw [if_neg hj]
      simpa using hfl

/-- A buffer piece that opens a clip grouping element (`<g clip-path=`,
possibly preceded by the closing `</g>`). -/
def isClipGroupOpen (s : String) : Bool :=
  decide ("<g clip-path=".data <+: s.data)
  || decide ("</g><g clip-path=".data <+: s.data)

/-- A minimal rectangle draw call pointing at clip `cid`. -/
def c4_rect (cid : ℤ) : DrawCall :=
  .rect cid ⟨0, 0, 1, 1⟩ 0 ⟨0, 1, 0, 1, 1, 10⟩

/-- Page with three clips and draw calls in clip order [1, 2, 1]. -/
def c4_page121 : Page :=
  { id := 0, size := ⟨4, 4⟩, fill := color.rgba 255 255 255 255,
    cps := [⟨1, ⟨0, 0, 4, 4⟩⟩, ⟨2, ⟨0, 0, 2, 2⟩⟩, ⟨3, ⟨0, 0, 1, 1⟩⟩],
    dcs := [c4_rect 1, c4_rect 2, c4_rect 1] }

/-- Page whose single draw call uses the second clip, not the first. -/
def c4_page_lead : Page :=
  { id := 0, size := ⟨4, 4⟩, fill := color.rgba 255 255 255 255,
    cps := [⟨1, ⟨0, 0, 4, 4⟩⟩, ⟨2, ⟨0, 0, 2, 2⟩⟩],
    dcs := [c4_rect 2] }

end Unigd

namespace Unigd

set_option maxRecDepth 8000 in
/-- Claim C4 (corrected), counterexample: grouping elements are not one
per maximal run.  A page whose first clip has id 1 but whose single
draw call uses clip 2 has one maximal run, yet the style-sheet SVG
output contains two grouping elements (an empty leading group
referencing clip 1, then the group for the run). -/
theorem C4_counterexample :
    (runsFrom c4_page_lead.dcs).length = 1
    ∧ (svg_page_pieces none c4_page_lead 1).map
        (fun ps => ps.filter isClipGroupOpen)
      = some [svg_open_first 1, svg_open_next 2] := by
  with_unfolding_all decide

end Unigd

namespace Unigd

set_option maxRecDepth 8000 in
/-- Claim C4 (amended): both vector (SVG) page renderers emit exactly
one grouping element per element of `runsOf first_clip_id dcs` - that
is, one per maximal contiguous run of draw calls sharing a clip id,
except that the unconditional first group references the first clip of
the page and absorbs the first run only when that run's id equals the
first clip's id (otherwise it is an extra, empty grouping element; see
the counterexample).  `runsFrom` is certified to be the maximal-run
partition: it flattens back to the draw calls, consecutive run ids
differ, and every run is nonempty with all members carrying its id.
The claimed [1,2,1] instance does hold: with three clips led by clip
1 and draw calls using clips 1, 2, 1, both SVG backends emit exactly
three grouping elements referencing clips 1, 2, 1 in order. -/
theorem C4_clip_groups :
    (∀ (extra_css : Option String) (p : Page) (scale : ℚ) (c0 : Clip)
        (crest : List Clip), p.cps = c0 :: crest →
      svg_page_pieces extra_css p scale
        = (gen_runs_pieces svg_visit svg_open_first svg_open_next c0.id p.dcs).map
            (fun grouped =>
              svg_header_pieces extra_css p scale ++ grouped ++ ["</g>\n</svg>"]))
    ∧ (∀ (tok : String) (p : Page) (scale : ℚ) (c0 : Clip)
        (crest : List Clip), p.cps = c0 :: crest →
      port_page_pieces tok p scale
        = (gen_runs_pieces port_visit (fun j => port_open_first j tok)
              (fun j => port_open_next j tok) c0.id p.dcs).map
            (fun grouped =>
              port_header_pieces tok p scale ++ grouped ++ ["</g>\n</svg>"]))
    ∧ (∀ dcs : List DrawCall,
        ((runsFrom dcs).map (fun rn => rn.2)).flatten = dcs
        ∧ List.Chain' (fun a b => (a.1 : ℤ) ≠ b.1) (runsFrom dcs)
        ∧ (∀ rn ∈ runsFrom dcs, rn.2 ≠ [] ∧ ∀ d ∈ rn.2, d.clip_id = rn.1)
        ∧ ∀ fid : ℤ, ((runsOf fid dcs).map (fun rn => rn.2)).flatten = dcs)
    ∧ (runsFrom c4_page121.dcs).map Prod.fst = [1, 2, 1]
    ∧ (svg_page_pieces none c4_page121 1).map (fun ps => ps.filter isClipGroupOpen)
        = some [svg_open_first 1, svg_open_next 2, svg_open_next 1]
    ∧ (port_page_pieces "t" c4_page121 1).map (fun ps => ps.filter isClipGroupOpen)
        = some [port_open_first 1 "t", port_open_next 2 "t", port_open_next 1 "t"] := by
  refine ⟨?_, ?_, ?_, ?_, ?_, ?_⟩
  · intro extra_css p scale c0 crest h
    exact svg_page_runs extra_css p scale c0 crest h
  · intro tok p scale c0 crest h
    exact port_page_runs tok p scale c0 crest h
  · intro dcs
    exact ⟨runsFrom_flatten dcs, runsFrom_chain dcs, runsFrom_members dcs,
      fun fid => runsOf_flatten fid dcs⟩
  · with_unfolding_all decide
  · with_unfolding_all decide
  · with_unfolding_all decide

/-- Witness for C4: the run-structure equation instantiated at the
concrete [1,2,1] page, whose clip-list hypothesis holds by
computation. -/
theorem C4_witness :
    svg_page_pieces none c4_page121 1
      = (gen_runs_pieces svg_visit svg_open_first svg_open_next
            (Clip.mk 1 ⟨0, 0, 4, 4⟩).id c4_page121.dcs).map
          (fun grouped =>
            svg_header_pieces none c4_page121 1 ++ grouped ++ ["</g>\n</svg>"]) :=
  C4_clip_groups.1 none c4_page121 1 ⟨1, ⟨0, 0, 4, 4⟩⟩
    [⟨2, ⟨0, 0, 2, 2⟩⟩, ⟨3, ⟨0, 0, 1, 1⟩⟩] rfl

end Unigd
